import Mathlib

/-!
Verification development for the Rockfall rules engine.

The definitions below are a shallow embedding of the JavaScript sources:
`src/utils/seededRandom.js`, `src/utils/gameConfig.js`, `src/game/tiles.js`,
`src/game/board.js`, the tile bag, and `src/game/gameState.js` /
`src/game/units.js`.  Mutable objects become immutable records threaded
through the operations; JS `null` results become `Option`; the string enums
become inductive types.  Purely presentational code (image names, colors,
symbols, the append-only event log, and the scout reveal ability) is not
modelled: it feeds nothing back into the rules logic.  Machine numbers are
modelled as `Int`/`Nat`; the linear-congruential generator's floating-point
quotient is modelled in exact integer arithmetic (a note appears at the
definition).
-/

set_option linter.unusedVariables false

namespace Rockfall

/-- Tile kinds, from the `TileType` enum in `gameConfig.js`. -/
inductive TileType where
  | blank
  | spikeTrap
  | cageTrap
  | oilSlickTrap
  | pushbackTrap
  | bombTrap
  | wall
  | treasure
  deriving DecidableEq, Repr

/-- Unit kinds, from the `UnitType` enum in `gameConfig.js`. -/
inductive UnitType where
  | basic
  | sprinter
  | jumper
  | scout
  | bomber
  deriving DecidableEq, Repr

/-- Game phases, from the `GamePhase` enum in `gameConfig.js`. -/
inductive GamePhase where
  | defense
  | offense
  deriving DecidableEq, Repr

/-- The winner field of the game state (`'offense' | 'defense'` in JS). -/
inductive Winner where
  | offense
  | defense
  deriving DecidableEq, Repr

/-- Machine-checkable error categories; each constructor corresponds to one
of the distinct error strings returned by the engine's operations. -/
inductive GameError where
  | wrongPhase
  | noTilesDefenseWins
  | invalidTileCount
  | placementFailed
  | unitAlreadyAlive
  | cannotRespawnYet
  | insufficientGold
  | spawnAreaOccupied
  | unitNotAlive
  | unitTrapped
  | invalidMove
  | invalidTargetPosition
  | targetOccupied
  | blockedByWall
  deriving DecidableEq, Repr

/-! ### Seeded RNG (`seededRandom.js`) -/

/-- State of the linear-congruential generator: the current seed. -/
structure SeededRandom where
  seed : Int
  deriving DecidableEq, Repr

/-- Constructor of `SeededRandom`: `seed % 2147483647`, bumped by
`2147483646` when ≤ 0.  JS `%` truncates toward zero, i.e. `Int.tmod`. -/
def SeededRandom.create (seed : Int) : SeededRandom :=
  let s := Int.tmod seed 2147483647
  if s ≤ 0 then ⟨s + 2147483646⟩ else ⟨s⟩

/-- `reset(seed)` restores the initial state; body identical to the
constructor. -/
def SeededRandom.reset0 (_r : SeededRandom) (seed : Int) : SeededRandom :=
  SeededRandom.create seed

/-- The state transition of `next()`: `seed = (seed * 16807) % 2147483647`.
The returned value `(seed - 1) / 2147483646` is consumed only by
`nextInt`. -/
def SeededRandom.next (r : SeededRandom) : SeededRandom :=
  ⟨Int.tmod (r.seed * 16807) 2147483647⟩

/-- `nextInt(min, max) = Math.floor(next() * (max - min + 1)) + min`.  The JS
code computes the product in double-precision floats; here the floor of the
exact rational value is taken (`Int.fdiv` is floor division).  For the
magnitudes used by the shuffle the two agree, and none of the verified
properties depends on the numeric value produced. -/
def SeededRandom.nextInt (r : SeededRandom) (lo hi : Int) : Int × SeededRandom :=
  let r2 := r.next
  (Int.fdiv ((r2.seed - 1) * (hi - lo + 1)) 2147483646 + lo, r2)

/-- Pointwise list update (JS array element assignment `arr[i] = v`, here with
a function applied to the stored value). -/
def listModify {α : Type} (l : List α) (i : Nat) (f : α → α) : List α :=
  match l, i with
  | [], _ => []
  | a :: t, 0 => f a :: t
  | a :: t, Nat.succ n => a :: listModify t n f

/-- The swap `[arr[i], arr[j]] = [arr[j], arr[i]]` from Fisher–Yates.  The
in-bounds guard is vacuous in the shuffle (indices are always in range). -/
def listSwap {α : Type} (l : List α) (i j : Nat) : List α :=
  match l[i]?, l[j]? with
  | some a, some b => (l.set i b).set j a
  | _, _ => l

/-- The loop of `shuffle`: for `i` from `arr.length - 1` down to `1`, draw
`j = nextInt(0, i)` and swap positions `i` and `j`. -/
def fisherYatesGo {α : Type} : SeededRandom → List α → Nat → List α × SeededRandom
  | r, arr, 0 => (arr, r)
  | r, arr, Nat.succ m =>
    let jr := r.nextInt 0 ((m + 1 : Nat) : Int)
    fisherYatesGo jr.2 (listSwap arr (m + 1) jr.1.toNat) m

/-- `shuffle(array)`: copies the input and runs the Fisher–Yates loop. -/
def SeededRandom.shuffle {α : Type} (r : SeededRandom) (array : List α) :
    List α × SeededRandom :=
  fisherYatesGo r array (array.length - 1)

/-! ### Tile supply (`TileBag`) -/

/-- The key order of the tile-count mapping (`Object.entries` enumerates the
config object's keys in insertion order). -/
def tileKinds : List TileType :=
  [.blank, .spikeTrap, .cageTrap, .oilSlickTrap, .pushbackTrap, .bombTrap, .wall, .treasure]

/-- The tile bag: stored seed, RNG, original per-kind counts, remaining
ordered tiles and drawn history. -/
structure TileBag where
  seed : Int
  rng : SeededRandom
  originalCounts : TileType → Nat
  remainingTiles : List TileType
  drawnTiles : List TileType

/-- `_createTileArray`: materialize `count` copies of each kind and shuffle
with the bag's RNG (returns the shuffled list and the advanced RNG). -/
def createTileArray (counts : TileType → Nat) (rng : SeededRandom) :
    List TileType × SeededRandom :=
  rng.shuffle (tileKinds.flatMap fun k => List.replicate (counts k) k)

/-- The `TileBag` constructor. -/
def TileBag.create (tileCounts : TileType → Nat) (seed : Int) : TileBag :=
  let rng := SeededRandom.create seed
  let sh := createTileArray tileCounts rng
  ⟨seed, sh.2, tileCounts, sh.1, []⟩

/-- `drawTile()`: pop the last remaining tile and append it to the drawn
history; `none` when the bag is empty. -/
def TileBag.drawTile (bag : TileBag) : Option TileType × TileBag :=
  match bag.remainingTiles.getLast? with
  | none => (none, bag)
  | some t =>
    (some t, { bag with
      remainingTiles := bag.remainingTiles.dropLast
      drawnTiles := bag.drawnTiles ++ [t] })

/-- `drawTiles(count)`: draw up to `count` tiles, stopping early when the
bag runs out. -/
def TileBag.drawTiles (bag : TileBag) : Nat → List TileType × TileBag
  | 0 => ([], bag)
  | Nat.succ n =>
    match bag.drawTile with
    | (none, bag2) => ([], bag2)
    | (some t, bag2) =>
      let rest := bag2.drawTiles n
      (t :: rest.1, rest.2)

/-- `canDraw(count)`: at least `count` tiles remain. -/
def TileBag.canDraw (bag : TileBag) (count : Nat) : Prop :=
  count ≤ bag.remainingTiles.length

instance (bag : TileBag) (count : Nat) : Decidable (bag.canDraw count) := by
  unfold TileBag.canDraw
  infer_instance

/-- `reset()`: reset the RNG to the stored seed, rebuild and reshuffle from
the original counts, clear the drawn history. -/
def TileBag.reset (bag : TileBag) : TileBag :=
  let rng := bag.rng.reset0 bag.seed
  let sh := createTileArray bag.originalCounts rng
  { bag with rng := sh.2, remainingTiles := sh.1, drawnTiles := [] }

/-- An observable operation on a tile bag (used to state the conservation
invariant over arbitrary operation sequences). -/
inductive BagOp where
  | draw
  | drawMany (n : Nat)
  | resetBag
  deriving DecidableEq, Repr

/-- Run one bag operation, keeping only the bag. -/
def runBagOp (bag : TileBag) : BagOp → TileBag
  | .draw => bag.drawTile.2
  | .drawMany n => (bag.drawTiles n).2
  | .resetBag => bag.reset

/-- Run a sequence of bag operations. -/
def runBagOps (ops : List BagOp) (bag : TileBag) : TileBag :=
  ops.foldl runBagOp bag

/-- Results of a sequence of `drawTiles` calls (used to state replay
determinism). -/
def runDrawCalls : List Nat → TileBag → List (List TileType)
  | [], _ => []
  | n :: rest, bag =>
    let d := bag.drawTiles n
    d.1 :: runDrawCalls rest d.2

/-! ### Tiles (`tiles.js`) -/

/-- One board cell. -/
structure Tile where
  type : TileType
  x : Int
  y : Int
  revealed : Bool
  hasUnit : Bool
  treasureCollected : Bool
  deriving DecidableEq, Repr

/-- `createTile` / the `Tile` constructor: face-down, unoccupied, not
collected. -/
def createTile (type : TileType) (x y : Int) : Tile :=
  ⟨type, x, y, false, false, false⟩

/-- `reveal()`. -/
def Tile.reveal (t : Tile) : Tile :=
  { t with revealed := true }

/-- `hide()`: flip face-down unless occupied or a collected treasure. -/
def Tile.hide (t : Tile) : Tile :=
  if t.hasUnit = false ∧ ¬(t.type = TileType.treasure ∧ t.treasureCollected = true) then
    { t with revealed := false }
  else t

/-- The structured outcome of `applyEffect`. -/
structure Effect where
  killed : Bool
  trapped : Bool
  blocked : Bool
  pushed : Option (Int × Int)
  treasure : Bool
  bomb : Bool
  deriving DecidableEq, Repr

/-- The all-false effect object (the literal built inline by `moveUnit` when
the target tile was already revealed). -/
def Effect.empty : Effect :=
  ⟨false, false, false, none, false, false⟩

/-- `applyEffect(unit, direction)` keyed on the tile kind.  The JS `unit`
argument is unused by the function body and is dropped here. -/
def Tile.applyEffect (t : Tile) (dx dy : Int) : Effect :=
  match t.type with
  | .blank => Effect.empty
  | .spikeTrap => { Effect.empty with killed := true }
  | .cageTrap => { Effect.empty with trapped := true }
  | .oilSlickTrap => { Effect.empty with pushed := some (dx, dy) }
  | .pushbackTrap => { Effect.empty with pushed := some (-dx, -dy) }
  | .bombTrap => { Effect.empty with bomb := true, killed := true }
  | .wall => { Effect.empty with blocked := true }
  | .treasure => { Effect.empty with treasure := true }

/-! ### Board (`board.js`) -/

/-- The board: row count, columns of tiles, highest filled column index. -/
structure Board where
  totalPaths : Nat
  columns : List (List Tile)
  maxColumn : Int
  deriving DecidableEq, Repr

/-- The `Board` constructor: no columns, `maxColumn = -1`. -/
def Board.create (totalPaths : Nat) : Board :=
  ⟨totalPaths, [], -1⟩

/-- `addColumn(tileTypes)`: requires exactly `totalPaths` kinds; creates one
tile per row at the next column index. -/
def Board.addColumn (b : Board) (tileTypes : List TileType) : Bool × Board :=
  if tileTypes.length ≠ b.totalPaths then (false, b)
  else
    let columnIndex := b.maxColumn + 1
    let newColumn := tileTypes.enum.map fun p => createTile p.2 columnIndex (p.1 : Int)
    (true, { b with columns := b.columns ++ [newColumn], maxColumn := columnIndex })

/-- `isValidPosition(x, y)`. -/
def Board.isValidPosition (b : Board) (x y : Int) : Prop :=
  0 ≤ x ∧ x ≤ b.maxColumn ∧ 0 ≤ y ∧ y < (b.totalPaths : Int)

instance (b : Board) (x y : Int) : Decidable (b.isValidPosition x y) := by
  unfold Board.isValidPosition
  infer_instance

/-- `isOffenseEndzone(x)`: the virtual spawn column. -/
def Board.isOffenseEndzone (_b : Board) (x : Int) : Prop :=
  x = -1

/-- `isDefenseEndzone(x)`: any column beyond the last placed one. -/
def Board.isDefenseEndzone (b : Board) (x : Int) : Prop :=
  b.maxColumn < x

instance (b : Board) (x : Int) : Decidable (b.isDefenseEndzone x) := by
  unfold Board.isDefenseEndzone
  infer_instance

/-- `getTile(x, y)`: bounds-checked lookup. -/
def Board.getTile (b : Board) (x y : Int) : Option Tile :=
  if x < 0 ∨ b.maxColumn < x ∨ y < 0 ∨ (b.totalPaths : Int) ≤ y then none
  else
    match b.columns[x.toNat]? with
    | none => none
    | some col => col[y.toNat]?

/-- In-place mutation of the tile at `(x, y)` (present iff `getTile` finds
it, exactly as the JS methods guard their mutations). -/
def Board.updateTile (b : Board) (x y : Int) (f : Tile → Tile) : Board :=
  match b.getTile x y with
  | none => b
  | some _ =>
    { b with columns := listModify b.columns x.toNat (fun col => listModify col y.toNat f) }

/-- `setTileHasUnit(x, y, hasUnit)`. -/
def Board.setTileHasUnit (b : Board) (x y : Int) (hu : Bool) : Board :=
  b.updateTile x y fun t => { t with hasUnit := hu }

/-- `revealTile(x, y)`. -/
def Board.revealTile (b : Board) (x y : Int) : Board :=
  b.updateTile x y Tile.reveal

/-- Apply `f` to every tile of the board (shape of `hideRevealedTiles` and of
`revealAllTiles`, which iterate over all tiles and mutate each in place). -/
def Board.mapTiles (b : Board) (f : Tile → Tile) : Board :=
  { b with columns := b.columns.map (List.map f) }

/-- `hideRevealedTiles()`: `hide` every tile (the per-tile guard is inside
`Tile.hide`). -/
def Board.hideRevealedTiles (b : Board) : Board :=
  b.mapTiles Tile.hide

/-- `clear()`. -/
def Board.clear (b : Board) : Board :=
  { b with columns := [], maxColumn := -1 }

/-! ### Units (`units.js`) -/

/-- One offense unit.  The JS `id` string is presentational and dropped. -/
structure Unit where
  type : UnitType
  x : Int
  y : Int
  alive : Bool
  spawned : Bool
  trapped : Bool
  canRespawn : Bool
  deriving DecidableEq, Repr

/-- `createUnit`: starts dead in the spawn zone, respawn enabled. -/
def createUnit (type : UnitType) : Unit :=
  ⟨type, -1, -1, false, false, false, true⟩

/-- `spawn(y)`: activate at the offense endzone. -/
def Unit.spawn (u : Unit) (y : Int) : Unit :=
  { u with x := -1, y := y, alive := true, spawned := true, trapped := false,
           canRespawn := false }

/-- `moveTo(x, y)`. -/
def Unit.moveTo (u : Unit) (x y : Int) : Unit :=
  { u with x := x, y := y }

/-- `kill()`: deactivate and return to the spawn zone. -/
def Unit.kill (u : Unit) : Unit :=
  { u with alive := false, spawned := false, x := -1, y := -1 }

/-- `enableRespawn()`: only dead units become eligible. -/
def Unit.enableRespawn (u : Unit) : Unit :=
  if u.alive = false then { u with canRespawn := true } else u

/-- `setTrapped(trapped)`. -/
def Unit.setTrapped (u : Unit) (trapped : Bool) : Unit :=
  { u with trapped := trapped }

/-- `hasJumpAbility()`. -/
def Unit.hasJumpAbility (u : Unit) : Bool :=
  u.type == UnitType.jumper

/-- `hasRevealAbility()`. -/
def Unit.hasRevealAbility (u : Unit) : Bool :=
  u.type == UnitType.scout

/-- `hasBombAbility()`. -/
def Unit.hasBombAbility (u : Unit) : Bool :=
  u.type == UnitType.bomber

/-- `isJumpMove(dx, dy)`: a jumper displacement of two tiles, orthogonal or
diagonal. -/
def Unit.isJumpMove (u : Unit) (dx dy : Int) : Bool :=
  u.hasJumpAbility &&
    ((dx.natAbs == 2 && dy == 0) || (dx == 0 && dy.natAbs == 2) ||
     (dx.natAbs == 2 && dy.natAbs == 2))

/-- `getMovementOptions(totalPaths)`: the legal `(dx, dy)` offsets, generated
exactly as in `units.js` (including push order). -/
def Unit.getMovementOptions (u : Unit) (totalPaths : Nat) : List (Int × Int) :=
  if u.x = -1 then
    if u.type = UnitType.sprinter then
      (List.range totalPaths).flatMap fun (targetY : Nat) =>
        [((1 : Int), (targetY : Int) - u.y), ((2 : Int), (targetY : Int) - u.y)]
    else if u.type = UnitType.jumper then
      (List.range totalPaths).map fun (targetY : Nat) => ((2 : Int), (targetY : Int) - u.y)
    else
      (List.range totalPaths).map fun (targetY : Nat) => ((1 : Int), (targetY : Int) - u.y)
  else
    match u.type with
    | .basic | .scout | .bomber =>
      [(1, 0), (0, 1), (0, -1)] ++ (if 0 < u.x then [((-1 : Int), (0 : Int))] else [])
    | .sprinter =>
      [(2, 0), (0, 2), (0, -2), (1, 0), (0, 1), (0, -1)] ++
        (if 0 < u.x then [((-1 : Int), (0 : Int))] else []) ++
        (if 1 < u.x then [((-2 : Int), (0 : Int))] else [])
    | .jumper =>
      [(2, 0), (0, 2), (0, -2), (2, 2), (2, -2), (-2, 2), (-2, -2)] ++
        (if 1 < u.x then [((-2 : Int), (0 : Int))] else [])

/-! ### Game configuration (`gameConfig.js`) -/

/-- Per-kind spawn (`summon`) and move costs. -/
structure UnitCost where
  summon : Nat
  move : Nat
  deriving DecidableEq, Repr

/-- The configuration value handed to the `GameState` constructor. -/
structure GameConfig where
  totalPaths : Nat
  startingGold : Int
  goldPerTurn : Int
  tileBag : TileType → Nat
  tileBagSeed : Int
  unitCosts : UnitType → UnitCost

/-- `getMoveCost(config)`: keyed on the unit's own kind. -/
def Unit.getMoveCost (u : Unit) (config : GameConfig) : Nat :=
  (config.unitCosts u.type).move

/-- `getSpawnCost(config)`. -/
def Unit.getSpawnCost (u : Unit) (config : GameConfig) : Nat :=
  (config.unitCosts u.type).summon

/-- The fixed map of offense units, one per kind (`createAllUnits`). -/
structure Units where
  basic : Unit
  sprinter : Unit
  jumper : Unit
  scout : Unit
  bomber : Unit
  deriving DecidableEq, Repr

/-- Key order of `Object.values(this.units)` (insertion order of
`createAllUnits`). -/
def allUnitTypes : List UnitType :=
  [.basic, .sprinter, .jumper, .scout, .bomber]

/-- Slot lookup: `this.units[unitType]`. -/
def Units.get (us : Units) : UnitType → Unit
  | .basic => us.basic
  | .sprinter => us.sprinter
  | .jumper => us.jumper
  | .scout => us.scout
  | .bomber => us.bomber

/-- Slot replacement (models in-place mutation of one unit object). -/
def Units.set (us : Units) : UnitType → Unit → Units
  | .basic, u => { us with basic := u }
  | .sprinter, u => { us with sprinter := u }
  | .jumper, u => { us with jumper := u }
  | .scout, u => { us with scout := u }
  | .bomber, u => { us with bomber := u }

/-- `Object.values(this.units)`. -/
def Units.values (us : Units) : List Unit :=
  allUnitTypes.map us.get

/-- `createAllUnits()`. -/
def createAllUnits : Units :=
  ⟨createUnit .basic, createUnit .sprinter, createUnit .jumper,
   createUnit .scout, createUnit .bomber⟩

/-! ### Game orchestrator (`gameState.js`) -/

/-- The orchestrator state.  The append-only event log is omitted: nothing
in the rules logic reads it. -/
structure GameState where
  config : GameConfig
  board : Board
  tileBag : TileBag
  units : Units
  turn : Nat
  phase : GamePhase
  defenseTurnCount : Nat
  firstCycle : Bool
  gold : Int
  currentDraw : List TileType
  gameOver : Bool
  winner : Option Winner

/-- The `GameState` constructor. -/
def GameState.init (config : GameConfig) : GameState :=
  ⟨config, Board.create config.totalPaths,
   TileBag.create config.tileBag config.tileBagSeed, createAllUnits,
   1, GamePhase.defense, 0, true, config.startingGold, [], false, none⟩

/-- `revealAllTiles()`: reveal every tile (game-over display state). -/
def GameState.revealAllTiles (s : GameState) : GameState :=
  { s with board := s.board.mapTiles Tile.reveal }

/-- Result of `startDefensePhase`. -/
structure StartResult where
  success : Bool
  tiles : List TileType
  error : Option GameError
  deriving DecidableEq, Repr

/-- `startDefensePhase()`: draw `totalPaths` tiles, or end the game with a
Defense win when the supply cannot furnish them. -/
def GameState.startDefensePhase (s : GameState) : StartResult × GameState :=
  if s.phase ≠ GamePhase.defense then (⟨false, [], some .wrongPhase⟩, s)
  else if ¬s.tileBag.canDraw s.config.totalPaths then
    let s1 := { s with gameOver := true, winner := some Winner.defense }
    (⟨false, [], some .noTilesDefenseWins⟩, s1.revealAllTiles)
  else
    let d := s.tileBag.drawTiles s.config.totalPaths
    (⟨true, d.1, none⟩, { s with tileBag := d.2, currentDraw := d.1 })

/-- Result of `placeDefenseTiles` / `spawnUnit`. -/
structure OpResult where
  success : Bool
  error : Option GameError
  deriving DecidableEq, Repr

/-- `placeDefenseTiles(tiles)`. -/
def GameState.placeDefenseTiles (s : GameState) (tiles : List TileType) :
    OpResult × GameState :=
  if s.phase ≠ GamePhase.defense then (⟨false, some .wrongPhase⟩, s)
  else if tiles.length ≠ s.config.totalPaths then (⟨false, some .invalidTileCount⟩, s)
  else
    let r := s.board.addColumn tiles
    if r.1 = false then (⟨false, some .placementFailed⟩, s)
    else (⟨true, none⟩, { s with board := r.2 })

/-- `endDefensePhase()`: second placement turn on the first cycle, otherwise
switch to Offense, grant gold (base plus one per living, non-trapped unit
with `x > -1`) and enable respawns. -/
def GameState.endDefensePhase (s : GameState) : GameState :=
  let s1 := { s with defenseTurnCount := s.defenseTurnCount + 1 }
  if s1.firstCycle = true ∧ s1.defenseTurnCount < 2 then
    { s1 with currentDraw := [] }
  else
    let s2 := { s1 with phase := GamePhase.offense, defenseTurnCount := 0,
                        firstCycle := false, currentDraw := [] }
    let unitsOnBoard :=
      (s2.units.values.filter fun u => u.alive && decide (-1 < u.x) && !u.trapped).length
    let s3 := { s2 with gold := s2.gold + s2.config.goldPerTurn + unitsOnBoard }
    { s3 with units :=
        allUnitTypes.foldl (fun us k => us.set k (us.get k).enableRespawn) s3.units }

/-- `spawnUnit(unitType)`.  The JS "invalid unit type" check cannot fire in
the typed model. -/
def GameState.spawnUnit (s : GameState) (unitType : UnitType) : OpResult × GameState :=
  let unit := s.units.get unitType
  if unit.alive = true then (⟨false, some .unitAlreadyAlive⟩, s)
  else if unit.canRespawn = false then (⟨false, some .cannotRespawnYet⟩, s)
  else if s.gold < (unit.getSpawnCost s.config : Int) then
    (⟨false, some .insufficientGold⟩, s)
  else if ∃ k ∈ allUnitTypes, (s.units.get k).alive = true ∧ (s.units.get k).x = -1 ∧
      (s.units.get k).spawned = true then
    (⟨false, some .spawnAreaOccupied⟩, s)
  else
    (⟨true, none⟩,
     { s with gold := s.gold - (unit.getSpawnCost s.config : Int),
              units := s.units.set unitType (unit.spawn 0) })

/-- Placeholder tile for the (unreachable) lookup of a tile at a position
already checked valid; the JS code would have crashed on `null` there. -/
def defaultTile : Tile :=
  ⟨TileType.blank, 0, 0, false, false, false⟩

/-- `triggerBombEffect(x, y)` with explicit recursion fuel.  A chain
recursion fires only for a living bomber-ability unit off-center, and each
such unit is killed when its own explosion is processed, so with the five
units of this game the recursion depth never exceeds the fuel used at the
call sites (6); the JS recursion is unbounded only in states the engine
cannot reach.  Kills happen before the occupancy cleanup, which therefore
reads the killed unit's reset coordinates (exactly as in the source). -/
def GameState.triggerBombFueled : Nat → GameState → Int → Int → GameState
  | 0, s, _, _ => s
  | Nat.succ fuel, s, x, y =>
    let adjacentPositions : List (Int × Int) := [(x + 1, y), (x - 1, y), (x, y + 1), (x, y - 1)]
    let step : GameState → UnitType → GameState := fun st k =>
      let u := st.units.get k
      if u.alive = true ∧
          ((u.x = x ∧ u.y = y) ∨ ∃ p ∈ adjacentPositions, u.x = p.1 ∧ u.y = p.2) then
        let st1 :=
          if u.hasBombAbility = true ∧ ¬(u.x = x ∧ u.y = y) then
            GameState.triggerBombFueled fuel st u.x u.y
          else st
        let st2 := { st1 with units := st1.units.set k (st1.units.get k).kill }
        let u2 := st2.units.get k
        if st2.board.isValidPosition u2.x u2.y then
          { st2 with board := st2.board.setTileHasUnit u2.x u2.y false }
        else st2
      else st
    let sU := allUnitTypes.foldl step s
    adjacentPositions.foldl (fun st p => { st with board := st.board.revealTile p.1 p.2 }) sU

/-- `triggerBombEffect` at the fuel sufficient for every reachable state. -/
def GameState.triggerBombEffect (s : GameState) (x y : Int) : GameState :=
  GameState.triggerBombFueled 6 s x y

/-- The result object of `moveUnit`: the JS `effects: { win: true }` payload
of the endzone branch is modelled by the `win` flag. -/
structure MoveResult where
  success : Bool
  error : Option GameError
  goldLost : Bool
  effects : Option Effect
  win : Bool
  deriving DecidableEq, Repr

/-- A failed move with no side channel. -/
def MoveResult.fail (e : GameError) : MoveResult :=
  ⟨false, some e, false, none, false⟩

/-- The `blocked-by-wall` failure, flagging the gold loss. -/
def MoveResult.wallBlocked : MoveResult :=
  ⟨false, some .blockedByWall, true, none, false⟩

/-- The endzone win result. -/
def MoveResult.winResult : MoveResult :=
  ⟨true, none, false, none, true⟩

/-- A successful move carrying the applied effects. -/
def MoveResult.ok (effects : Effect) : MoveResult :=
  ⟨true, none, false, some effects, false⟩

/-- The `effects.killed` block of `moveUnit`: a bomber's death triggers its
bomb before the kill; the dead unit's tile is unmarked. -/
def GameState.moveKillStep (s : GameState) (unitType : UnitType)
    (targetX targetY : Int) (effects : Effect) : GameState :=
  if effects.killed = true then
    let sA :=
      if (s.units.get unitType).hasBombAbility = true then
        s.triggerBombEffect (s.units.get unitType).x (s.units.get unitType).y
      else s
    let sB := { sA with units := sA.units.set unitType (sA.units.get unitType).kill }
    { sB with board := sB.board.setTileHasUnit targetX targetY false }
  else s

/-- The `effects.trapped` block of `moveUnit`: entering a cage traps the
mover; a unit already trapped there is freed. -/
def GameState.moveCageStep (s : GameState) (unitType : UnitType)
    (targetX targetY : Int) (effects : Effect) : GameState :=
  if effects.trapped = true then
    match allUnitTypes.find? (fun k =>
        !(k == unitType) && (s.units.get k).alive && (s.units.get k).trapped &&
        (s.units.get k).x == targetX && (s.units.get k).y == targetY) with
    | some other =>
      let usA := s.units.set unitType ((s.units.get unitType).setTrapped true)
      let sA := { s with units := usA }
      { sA with units := sA.units.set other ((sA.units.get other).setTrapped false) }
    | none =>
      { s with units := s.units.set unitType ((s.units.get unitType).setTrapped true) }
  else s

/-- The `effects.treasure` block of `moveUnit`: grant 4 gold and mark the
tile collected. -/
def GameState.moveTreasureStep (s : GameState) (targetX targetY : Int)
    (effects : Effect) : GameState :=
  if effects.treasure = true then
    { s with gold := s.gold + 4,
             board := s.board.updateTile targetX targetY
               (fun t => { t with treasureCollected := true }) }
  else s

/-- The `effects.bomb` block of `moveUnit`. -/
def GameState.moveBombStep (s : GameState) (targetX targetY : Int)
    (effects : Effect) : GameState :=
  if effects.bomb = true then s.triggerBombEffect targetX targetY else s

/-- The `effects.pushed` block of `moveUnit`: the caller-side push loop,
with the wall special-casing (both the oil bounce comment and the pushback
cancel leave the unit in place) and a single effect application on the
landing tile. -/
def GameState.movePushStep (s : GameState) (unitType : UnitType)
    (targetX targetY : Int) (effects : Effect) : GameState :=
  match effects.pushed with
  | none => s
  | some pd =>
    let newX := targetX + pd.1
    let newY := targetY + pd.2
    if s.board.isValidPosition newX newY then
      let pushTile := (s.board.getTile newX newY).getD defaultTile
      if pushTile.type = TileType.wall then s
      else
        let sA := { s with board := s.board.setTileHasUnit targetX targetY false }
        let usB := sA.units.set unitType ((sA.units.get unitType).moveTo newX newY)
        let sB := { sA with units := usB }
        let sC := { sB with board := sB.board.setTileHasUnit newX newY true }
        let sD := { sC with board := sC.board.revealTile newX newY }
        let pushEffects := pushTile.applyEffect pd.1 pd.2
        if pushEffects.killed = true then
          let sE := { sD with units := sD.units.set unitType (sD.units.get unitType).kill }
          { sE with board := sE.board.setTileHasUnit newX newY false }
        else sD
    else s

/-- The tile-effect consequence block of `moveUnit` (the sequential
`effects.killed / trapped / treasure / bomb / pushed` handlers), applied to
the state in which the unit already stands on the target tile. -/
def GameState.applyMoveEffects (s : GameState) (unitType : UnitType)
    (targetX targetY : Int) (effects : Effect) : GameState :=
  ((((s.moveKillStep unitType targetX targetY effects).moveCageStep
      unitType targetX targetY effects).moveTreasureStep
      targetX targetY effects).moveBombStep
      targetX targetY effects).movePushStep unitType targetX targetY effects

/-- The body of `moveUnit` after all validations have passed and the
endzone short-circuit did not fire: pay, relocate, reveal unless jumping,
roll back on a wall, otherwise apply the tile's effects. -/
def GameState.moveUnitExec (s : GameState) (unitType : UnitType)
    (targetX targetY : Int) (cost : Int) : MoveResult × GameState :=
  let unit := s.units.get unitType
  let dx := targetX - unit.x
  let dy := targetY - unit.y
  let oldX := unit.x
  let oldY := unit.y
  let s1 :=
    if s.board.isValidPosition oldX oldY then
      { s with board := s.board.setTileHasUnit oldX oldY false }
    else s
  let s2 := { s1 with gold := s1.gold - cost,
                      units := s1.units.set unitType (unit.moveTo targetX targetY) }
  let tile := (s2.board.getTile targetX targetY).getD defaultTile
  let wasRevealed := tile.revealed
  let s3 :=
    if unit.isJumpMove dx dy = false then
      { s2 with board := s2.board.revealTile targetX targetY }
    else s2
  if tile.type = TileType.wall then
    let us4 := s3.units.set unitType ((s3.units.get unitType).moveTo oldX oldY)
    let s4 := { s3 with units := us4 }
    let s5 :=
      if s4.board.isValidPosition oldX oldY then
        { s4 with board := s4.board.setTileHasUnit oldX oldY true }
      else s4
    (MoveResult.wallBlocked, s5)
  else
    let s4 := { s3 with board := s3.board.setTileHasUnit targetX targetY true }
    let effects := if wasRevealed = true then Effect.empty else tile.applyEffect dx dy
    (MoveResult.ok effects, s4.applyMoveEffects unitType targetX targetY effects)

/-- `moveUnit(unitType, targetX, targetY)`: validations, endzone win
short-circuit, then `moveUnitExec`. -/
def GameState.moveUnit (s : GameState) (unitType : UnitType)
    (targetX targetY : Int) : MoveResult × GameState :=
  let unit := s.units.get unitType
  if unit.alive = false then (MoveResult.fail .unitNotAlive, s)
  else if unit.trapped = true then (MoveResult.fail .unitTrapped, s)
  else if s.gold < (unit.getMoveCost s.config : Int) then
    (MoveResult.fail .insufficientGold, s)
  else if (targetX - unit.x, targetY - unit.y) ∉ unit.getMovementOptions s.config.totalPaths then
    (MoveResult.fail .invalidMove, s)
  else if ¬(s.board.isValidPosition targetX targetY ∨ s.board.isDefenseEndzone targetX) then
    (MoveResult.fail .invalidTargetPosition, s)
  else if ∃ k ∈ allUnitTypes, k ≠ unitType ∧ (s.units.get k).alive = true ∧
      (s.units.get k).x = targetX ∧ (s.units.get k).y = targetY then
    (MoveResult.fail .targetOccupied, s)
  else if s.board.isDefenseEndzone targetX then
    let s1 := { s with gold := s.gold - (unit.getMoveCost s.config : Int),
                       gameOver := true, winner := some Winner.offense }
    (MoveResult.winResult, s1.revealAllTiles)
  else
    s.moveUnitExec unitType targetX targetY (unit.getMoveCost s.config : Int)

/-- `endOffensePhase()`: hide unoccupied non-collected tiles, re-mark tiles
under living units, advance the turn, return to Defense. -/
def GameState.endOffensePhase (s : GameState) : GameState :=
  let s1 := { s with board := s.board.hideRevealedTiles }
  let s2 := allUnitTypes.foldl (fun st k =>
    let u := st.units.get k
    if u.alive = true ∧ st.board.isValidPosition u.x u.y then
      { st with board := st.board.setTileHasUnit u.x u.y true }
    else st) s1
  { s2 with turn := s2.turn + 1, phase := GamePhase.defense }

/-! ### Concrete fixtures used by witnesses and counterexamples -/

/-- A drained tile bag (used where the bag's contents are irrelevant or an
exhausted supply is wanted). -/
def emptyBag : TileBag :=
  ⟨1, ⟨1⟩, fun _ => 0, [], []⟩

/-- Build a board by a sequence of `addColumn` calls. -/
def boardOfKinds (tp : Nat) (cols : List (List TileType)) : Board :=
  cols.foldl (fun b ks => (b.addColumn ks).2) (Board.create tp)

/-- The default unit costs of `gameConfig.js`. -/
def testCosts : UnitType → UnitCost
  | .basic => ⟨2, 1⟩
  | .sprinter => ⟨3, 1⟩
  | .jumper => ⟨3, 1⟩
  | .scout => ⟨4, 2⟩
  | .bomber => ⟨4, 1⟩

/-- The default tile-bag composition of `gameConfig.js`. -/
def testCounts : TileType → Nat
  | .blank => 12
  | .spikeTrap => 6
  | .cageTrap => 4
  | .oilSlickTrap => 3
  | .pushbackTrap => 3
  | .bombTrap => 2
  | .wall => 4
  | .treasure => 2

/-- The default configuration (`totalPaths 4`, starting gold 4, gold per
turn 4), with seed 1. -/
def testConfig : GameConfig :=
  ⟨4, 4, 4, testCounts, 1, testCosts⟩

/-- Three placed columns; walls at `(2,0)` and `(2,1)`, an oil slick at
`(1,1)`, a bomb trap at `(2,2)`. -/
def boardA : Board := boardOfKinds 4
  [[.blank, .blank, .blank, .blank],
   [.blank, .oilSlickTrap, .blank, .blank],
   [.wall, .wall, .bombTrap, .blank]]

/-- Basic at `(0,1)`, jumper at `(0,2)`, bomber at `(2,3)`, all alive. -/
def unitsA : Units :=
  { createAllUnits with
      basic := ⟨.basic, 0, 1, true, true, false, false⟩
      jumper := ⟨.jumper, 0, 2, true, true, false, false⟩
      bomber := ⟨.bomber, 2, 3, true, true, false, false⟩ }

/-- Offense-phase state on `boardA` with 5 gold. -/
def gsA : GameState :=
  ⟨testConfig, boardA, emptyBag, unitsA, 1, .offense, 0, false, 5, [], false, none⟩

/-- Two placed columns with an unrevealed treasure at `(1,0)`. -/
def boardB : Board := boardOfKinds 4
  [[.blank, .blank, .blank, .blank],
   [.treasure, .blank, .blank, .blank]]

/-- Basic alone on the board at `(0,0)`. -/
def unitsB : Units :=
  { createAllUnits with basic := ⟨.basic, 0, 0, true, true, false, false⟩ }

/-- Offense-phase state on `boardB` with 5 gold. -/
def gsB : GameState :=
  ⟨testConfig, boardB, emptyBag, unitsB, 1, .offense, 0, false, 5, [], false, none⟩

/-- Basic alone at `(1,0)`, one step left of the wall at `(2,0)`. -/
def unitsC : Units :=
  { createAllUnits with basic := ⟨.basic, 1, 0, true, true, false, false⟩ }

/-- Offense-phase state on `boardA` with the basic next to a wall. -/
def gsC : GameState :=
  ⟨testConfig, boardA, emptyBag, unitsC, 1, .offense, 0, false, 5, [], false, none⟩

/-- The same position as `gsC` but in the Defense phase with the game
already over (exercises the absence of phase/game-over gating). -/
def gsD : GameState :=
  ⟨testConfig, boardA, emptyBag, unitsC, 1, .defense, 0, false, 5, [], true, some .defense⟩

/-- Basic alone at `(2,3)`, one step left of the defense goal column. -/
def unitsE : Units :=
  { createAllUnits with basic := ⟨.basic, 2, 3, true, true, false, false⟩ }

/-- Offense-phase state with the basic about to reach the goal column. -/
def gsE : GameState :=
  ⟨testConfig, boardA, emptyBag, unitsE, 1, .offense, 0, false, 5, [], false, none⟩

/-- Defense-phase state whose tile bag is exhausted. -/
def gsF : GameState :=
  ⟨testConfig, boardA, emptyBag, unitsE, 1, .defense, 0, false, 5, [], false, none⟩

/-- Fresh defense-phase state on the first cycle, no defense turn taken. -/
def gsG : GameState :=
  ⟨testConfig, boardA, emptyBag, createAllUnits, 1, .defense, 0, true, 5, [], false, none⟩

/-- Basic at `(0,1)` and jumper at `(0,2)` alive: exactly two living,
non-trapped units on the board. -/
def unitsH : Units :=
  { createAllUnits with
      basic := ⟨.basic, 0, 1, true, true, false, false⟩
      jumper := ⟨.jumper, 0, 2, true, true, false, false⟩ }

/-- Defense-phase state past the first cycle with two units on board. -/
def gsH : GameState :=
  ⟨testConfig, boardA, emptyBag, unitsH, 2, .defense, 1, false, 5, [], false, none⟩

/-- Defense-phase, game-over state with all units dead and respawnable
(exercises `spawnUnit` without phase/game-over gating). -/
def gsI : GameState :=
  ⟨testConfig, boardA, emptyBag, createAllUnits, 1, .defense, 0, false, 5, [], true, some .defense⟩

/-! ## Theorems

General list bookkeeping lemmas, then per-component lemmas, then the claim
theorems. -/

theorem listModify_getElem? {α : Type} (l : List α) (i : Nat) (f : α → α) (j : Nat) :
    (listModify l i f)[j]? = if i = j then Option.map f l[j]? else l[j]? := by
  induction l generalizing i j with
  | nil => simp [listModify]
  | cons hd tl ih =>
    cases i with
    | zero =>
      cases j with
      | zero => simp [listModify]
      | succ m => simp [listModify]
    | succ n =>
      cases j with
      | zero => simp [listModify]
      | succ m =>
        simp only [listModify, List.getElem?_cons_succ, ih]
        by_cases h : n = m <;> simp [h]

theorem listModify_length {α : Type} (l : List α) (i : Nat) (f : α → α) :
    (listModify l i f).length = l.length := by
  induction l generalizing i with
  | nil => simp [listModify]
  | cons hd tl ih =>
    cases i with
    | zero => simp [listModify]
    | succ n => simp [listModify, ih]

theorem ite_one_comm {α : Type} [DecidableEq α] (a b : α) :
    (if a = b then (1 : Nat) else 0) = (if b = a then 1 else 0) := by
  rcases eq_or_ne a b with rfl | h
  · rfl
  · rw [if_neg h, if_neg (Ne.symm h)]

theorem count_set_balance {α : Type} [DecidableEq α] (l : List α) (i : Nat) (x gi a : α)
    (h : l[i]? = some gi) :
    (l.set i x).count a + (if gi = a then 1 else 0)
      = l.count a + (if x = a then 1 else 0) := by
  induction l generalizing i with
  | nil => simp at h
  | cons hd tl ih =>
    cases i with
    | zero =>
      simp only [List.getElem?_cons_zero, Option.some.injEq] at h
      subst h
      rw [List.set_cons_zero, List.count_cons, List.count_cons]
      simp only [beq_iff_eq]
      omega
    | succ n =>
      simp only [List.getElem?_cons_succ] at h
      rw [List.set_cons_succ, List.count_cons, List.count_cons]
      simp only [beq_iff_eq]
      have := ih n h
      omega

theorem count_listSwap {α : Type} [DecidableEq α] (l : List α) (i j : Nat) (a : α) :
    (listSwap l i j).count a = l.count a := by
  unfold listSwap
  cases hi : l[i]? with
  | none => rfl
  | some gi =>
    cases hj : l[j]? with
    | none => rfl
    | some gj =>
      show ((l.set i gj).set j gi).count a = l.count a
      have h1 := count_set_balance l i gj gi a hi
      have hset : (l.set i gj)[j]? = some gj := by
        by_cases hij : i = j
        · subst hij
          simp [List.getElem?_set_self', hi]
        · rw [List.getElem?_set_ne hij, hj]
      have h2 := count_set_balance (l.set i gj) j gi gj a hset
      generalize (if gi = a then 1 else 0) = A at h1 h2
      generalize (if gj = a then 1 else 0) = B at h1 h2
      omega

theorem count_fisherYatesGo {α : Type} [DecidableEq α] (a : α) :
    ∀ (i : Nat) (r : SeededRandom) (arr : List α),
      ((fisherYatesGo r arr i).1).count a = arr.count a := by
  intro i
  induction i with
  | zero => intro r arr; rfl
  | succ m ih =>
    intro r arr
    rw [fisherYatesGo, ih, count_listSwap]

theorem count_shuffle {α : Type} [DecidableEq α] (r : SeededRandom) (l : List α) (a : α) :
    ((r.shuffle l).1).count a = l.count a :=
  count_fisherYatesGo a (l.length - 1) r l

theorem count_materialize (c : TileType → Nat) (k : TileType) :
    (tileKinds.flatMap fun j => List.replicate (c j) j).count k = c k := by
  cases k <;>
    simp [tileKinds, List.count_append, List.count_replicate]

/-- The per-kind conservation invariant of a tile bag. -/
def TileBag.conserved (bag : TileBag) : Prop :=
  ∀ k, bag.remainingTiles.count k + bag.drawnTiles.count k = bag.originalCounts k

theorem conserved_create (counts : TileType → Nat) (seed : Int) :
    (TileBag.create counts seed).conserved := by
  intro k
  show ((createTileArray counts (SeededRandom.create seed)).1).count k + [].count k = counts k
  rw [createTileArray]
  simp [count_shuffle, count_materialize]

theorem count_dropLast_of_getLast? {α : Type} [DecidableEq α] (l : List α) (t : α)
    (h : l.getLast? = some t) (a : α) :
    l.count a = l.dropLast.count a + (if t = a then 1 else 0) := by
  have hne : l ≠ [] := by rintro rfl; simp at h
  conv_lhs => rw [← List.dropLast_append_getLast hne]
  rw [List.count_append]
  have hg : l.getLast hne = t := by
    have := List.getLast?_eq_getLast l hne
    rw [this] at h
    exact Option.some.inj h
  rw [hg, List.count_singleton']

theorem conserved_drawTile (bag : TileBag) (h : bag.conserved) :
    bag.drawTile.2.conserved := by
  unfold TileBag.drawTile
  cases hl : bag.remainingTiles.getLast? with
  | none => exact h
  | some t =>
    intro k
    have hc := h k
    have hd := count_dropLast_of_getLast? bag.remainingTiles t hl k
    simp only [List.count_append, List.count_singleton']
    generalize (if t = k then (1 : Nat) else 0) = A at hd ⊢
    omega

theorem conserved_drawTiles (bag : TileBag) (n : Nat) (h : bag.conserved) :
    (bag.drawTiles n).2.conserved := by
  induction n generalizing bag with
  | zero => exact h
  | succ m ih =>
    rw [TileBag.drawTiles]
    have hd := conserved_drawTile bag h
    cases hdt : bag.drawTile with
    | mk fst snd =>
      cases fst with
      | none => simpa [hdt] using hd
      | some t =>
        simp only []
        have : snd.conserved := by rw [hdt] at hd; exact hd
        exact ih snd this

theorem originalCounts_drawTile (bag : TileBag) :
    bag.drawTile.2.originalCounts = bag.originalCounts := by
  unfold TileBag.drawTile
  cases bag.remainingTiles.getLast? <;> rfl

theorem originalCounts_drawTiles (bag : TileBag) (n : Nat) :
    (bag.drawTiles n).2.originalCounts = bag.originalCounts := by
  induction n generalizing bag with
  | zero => rfl
  | succ m ih =>
    rw [TileBag.drawTiles]
    have ho := originalCounts_drawTile bag
    cases hdt : bag.drawTile with
    | mk fst snd =>
      cases fst with
      | none => rw [hdt] at ho; exact ho
      | some t =>
        simp only []
        rw [ih snd]
        rw [hdt] at ho
        exact ho

theorem conserved_reset (bag : TileBag) : bag.reset.conserved := by
  intro k
  show ((createTileArray bag.originalCounts (bag.rng.reset0 bag.seed)).1).count k + [].count k
      = bag.originalCounts k
  rw [createTileArray]
  simp [count_shuffle, count_materialize]

theorem conserved_runBagOp (bag : TileBag) (op : BagOp) (h : bag.conserved) :
    (runBagOp bag op).conserved := by
  cases op with
  | draw => exact conserved_drawTile bag h
  | drawMany n => exact conserved_drawTiles bag n h
  | resetBag => exact conserved_reset bag

theorem originalCounts_runBagOp (bag : TileBag) (op : BagOp) :
    (runBagOp bag op).originalCounts = bag.originalCounts := by
  cases op with
  | draw => exact originalCounts_drawTile bag
  | drawMany n => exact originalCounts_drawTiles bag n
  | resetBag => rfl

theorem conserved_runBagOps (ops : List BagOp) (bag : TileBag) (h : bag.conserved) :
    (runBagOps ops bag).conserved := by
  induction ops generalizing bag with
  | nil => exact h
  | cons op rest ih => exact ih (runBagOp bag op) (conserved_runBagOp bag op h)

theorem originalCounts_runBagOps (ops : List BagOp) (bag : TileBag) :
    (runBagOps ops bag).originalCounts = bag.originalCounts := by
  induction ops generalizing bag with
  | nil => rfl
  | cons op rest ih =>
    show (runBagOps rest (runBagOp bag op)).originalCounts = bag.originalCounts
    rw [ih (runBagOp bag op), originalCounts_runBagOp]

/-- C6: for every sequence of `drawTile`, `drawTiles` and `reset` operations
on a tile supply built from a kind-to-count mapping, and for every tile
kind, the count of that kind among the remaining tiles plus its count among
the drawn tiles equals its originally configured count. -/
theorem C6_theorem (counts : TileType → Nat) (seed : Int) (ops : List BagOp) (k : TileType) :
    (runBagOps ops (TileBag.create counts seed)).remainingTiles.count k +
      (runBagOps ops (TileBag.create counts seed)).drawnTiles.count k = counts k := by
  have h := conserved_runBagOps ops (TileBag.create counts seed) (conserved_create counts seed)
  have ho := originalCounts_runBagOps ops (TileBag.create counts seed)
  have := h k
  rw [ho] at this
  exact this

/-- C7: two tile supplies built from the same seed and the same
kind-to-count mapping produce identical draw sequences for any identical
sequence of `drawTiles` calls. -/
theorem C7_theorem (counts1 counts2 : TileType → Nat) (seed1 seed2 : Int)
    (calls : List Nat) (hc : ∀ k, counts1 k = counts2 k) (hs : seed1 = seed2) :
    runDrawCalls calls (TileBag.create counts1 seed1)
      = runDrawCalls calls (TileBag.create counts2 seed2) := by
  have : counts1 = counts2 := funext hc
  rw [this, hs]

/-- Witness for C7 at the default composition and seed 1, with three draw
calls. -/
theorem C7_witness :
    runDrawCalls [4, 4, 4] (TileBag.create testCounts 1)
      = runDrawCalls [4, 4, 4] (TileBag.create testCounts 1) :=
  C7_theorem testCounts testCounts 1 1 [4, 4, 4] (fun _ => rfl) rfl

/-! ### Movement options (C5) -/

theorem moveOpts_basicLike_mid (u : Unit) (tp : Nat)
    (hk : u.type = .basic ∨ u.type = .scout ∨ u.type = .bomber) (hx : 0 < u.x) :
    u.getMovementOptions tp = [(1, 0), (0, 1), (0, -1), (-1, 0)] := by
  have hne : ¬u.x = -1 := by omega
  rcases hk with h | h | h <;> simp [Unit.getMovementOptions, hne, h, hx]

theorem moveOpts_basicLike_zero (u : Unit) (tp : Nat)
    (hk : u.type = .basic ∨ u.type = .scout ∨ u.type = .bomber) (hx : u.x = 0) :
    u.getMovementOptions tp = [(1, 0), (0, 1), (0, -1)] := by
  have hne : ¬u.x = -1 := by omega
  rcases hk with h | h | h <;> simp [Unit.getMovementOptions, hne, h, hx]

theorem moveOpts_sprinter_mid (u : Unit) (tp : Nat)
    (hk : u.type = .sprinter) (hx : 1 < u.x) :
    u.getMovementOptions tp
      = [(2, 0), (0, 2), (0, -2), (1, 0), (0, 1), (0, -1), (-1, 0), (-2, 0)] := by
  have hne : ¬u.x = -1 := by omega
  have hx0 : (0 : Int) < u.x := by omega
  simp [Unit.getMovementOptions, hne, hk, hx, hx0]

theorem moveOpts_sprinter_one (u : Unit) (tp : Nat)
    (hk : u.type = .sprinter) (hx : u.x = 1) :
    u.getMovementOptions tp
      = [(2, 0), (0, 2), (0, -2), (1, 0), (0, 1), (0, -1), (-1, 0)] := by
  have hne : ¬u.x = -1 := by omega
  simp [Unit.getMovementOptions, hne, hk, hx]

theorem moveOpts_sprinter_zero (u : Unit) (tp : Nat)
    (hk : u.type = .sprinter) (hx : u.x = 0) :
    u.getMovementOptions tp = [(2, 0), (0, 2), (0, -2), (1, 0), (0, 1), (0, -1)] := by
  have hne : ¬u.x = -1 := by omega
  simp [Unit.getMovementOptions, hne, hk, hx]

theorem moveOpts_jumper_mid (u : Unit) (tp : Nat)
    (hk : u.type = .jumper) (hx : 1 < u.x) :
    u.getMovementOptions tp
      = [(2, 0), (0, 2), (0, -2), (2, 2), (2, -2), (-2, 2), (-2, -2), (-2, 0)] := by
  have hne : ¬u.x = -1 := by omega
  simp [Unit.getMovementOptions, hne, hk, hx]

theorem moveOpts_jumper_low (u : Unit) (tp : Nat)
    (hk : u.type = .jumper) (hx : u.x = 0 ∨ u.x = 1) :
    u.getMovementOptions tp
      = [(2, 0), (0, 2), (0, -2), (2, 2), (2, -2), (-2, 2), (-2, -2)] := by
  have hne : ¬u.x = -1 := by omega
  have hx2 : ¬(1 : Int) < u.x := by omega
  simp [Unit.getMovementOptions, hne, hk, hx2]

theorem moveOpts_spawn_basicLike (u : Unit) (tp : Nat)
    (hx : u.x = -1) (hk : u.type = .basic ∨ u.type = .scout ∨ u.type = .bomber) :
    u.getMovementOptions tp
      = (List.range tp).map fun (t : Nat) => ((1 : Int), (t : Int) - u.y) := by
  rcases hk with h | h | h <;> simp [Unit.getMovementOptions, hx, h]

theorem moveOpts_spawn_sprinter (u : Unit) (tp : Nat)
    (hx : u.x = -1) (hk : u.type = .sprinter) :
    u.getMovementOptions tp
      = (List.range tp).flatMap fun (t : Nat) =>
          [((1 : Int), (t : Int) - u.y), ((2 : Int), (t : Int) - u.y)] := by
  simp [Unit.getMovementOptions, hx, hk]

theorem moveOpts_spawn_jumper (u : Unit) (tp : Nat)
    (hx : u.x = -1) (hk : u.type = .jumper) :
    u.getMovementOptions tp
      = (List.range tp).map fun (t : Nat) => ((2 : Int), (t : Int) - u.y) := by
  simp [Unit.getMovementOptions, hx, hk]

theorem nodup_spawn_map (c : Int) (y : Int) (tp : Nat) :
    ((List.range tp).map fun (t : Nat) => (c, (t : Int) - y)).Nodup := by
  have hinj : Function.Injective (fun (t : Nat) => (c, (t : Int) - y)) := by
    intro a b h
    have h2 : (a : Int) - y = (b : Int) - y := congrArg Prod.snd h
    omega
  exact (List.nodup_range tp).map hinj

theorem nodup_spawn_sprinter (y : Int) (tp : Nat) :
    ((List.range tp).flatMap fun (t : Nat) =>
        [((1 : Int), (t : Int) - y), ((2 : Int), (t : Int) - y)]).Nodup := by
  rw [List.nodup_flatMap]
  constructor
  · intro t _
    simp
  · have h := List.nodup_range tp
    refine List.Pairwise.imp ?_ h
    intro a b hab e he1 he2
    have h1 : e.2 = (a : Int) - y := by
      rcases List.mem_cons.mp he1 with h | h
      · rw [h]
      · rw [List.mem_singleton.mp h]
    have h2 : e.2 = (b : Int) - y := by
      rcases List.mem_cons.mp he2 with h | h
      · rw [h]
      · rw [List.mem_singleton.mp h]
    rw [h1] at h2
    have : a = b := by omega
    exact hab this

/-- C5 (amended): the generated legal-offset sets, characterized exactly,
per kind and position.  The §4.5 table holds except near the spawn
boundary: a sprinter additionally omits `(-1,0)` at column 0 and `(-2,0)`
at columns 0 and 1, and a jumper has only seven of the eight two-tile
offsets at columns 0 and 1 (omitting `(-2,0)`); all sets are duplicate-free
and the jumper never has a single-tile offset. -/
theorem C5_theorem :
    (∀ (u : Unit) (tp : Nat),
        (u.type = .basic ∨ u.type = .scout ∨ u.type = .bomber) → 0 < u.x →
        u.getMovementOptions tp = [(1, 0), (0, 1), (0, -1), (-1, 0)] ∧
        (u.getMovementOptions tp).Nodup) ∧
    (∀ (u : Unit) (tp : Nat),
        (u.type = .basic ∨ u.type = .scout ∨ u.type = .bomber) → u.x = 0 →
        u.getMovementOptions tp = [(1, 0), (0, 1), (0, -1)] ∧
        (u.getMovementOptions tp).Nodup) ∧
    (∀ (u : Unit) (tp : Nat), u.type = .sprinter → 1 < u.x →
        u.getMovementOptions tp
          = [(2, 0), (0, 2), (0, -2), (1, 0), (0, 1), (0, -1), (-1, 0), (-2, 0)] ∧
        (u.getMovementOptions tp).Nodup) ∧
    (∀ (u : Unit) (tp : Nat), u.type = .sprinter → u.x = 1 →
        u.getMovementOptions tp
          = [(2, 0), (0, 2), (0, -2), (1, 0), (0, 1), (0, -1), (-1, 0)] ∧
        (u.getMovementOptions tp).Nodup) ∧
    (∀ (u : Unit) (tp : Nat), u.type = .sprinter → u.x = 0 →
        u.getMovementOptions tp = [(2, 0), (0, 2), (0, -2), (1, 0), (0, 1), (0, -1)] ∧
        (u.getMovementOptions tp).Nodup) ∧
    (∀ (u : Unit) (tp : Nat), u.type = .jumper → 1 < u.x →
        u.getMovementOptions tp
          = [(2, 0), (0, 2), (0, -2), (2, 2), (2, -2), (-2, 2), (-2, -2), (-2, 0)] ∧
        (u.getMovementOptions tp).Nodup) ∧
    (∀ (u : Unit) (tp : Nat), u.type = .jumper → (u.x = 0 ∨ u.x = 1) →
        u.getMovementOptions tp
          = [(2, 0), (0, 2), (0, -2), (2, 2), (2, -2), (-2, 2), (-2, -2)] ∧
        (u.getMovementOptions tp).Nodup) ∧
    (∀ (u : Unit) (tp : Nat), u.x = -1 →
        (u.type = .basic ∨ u.type = .scout ∨ u.type = .bomber) →
        u.getMovementOptions tp = ((List.range tp).map fun (t : Nat) => ((1 : Int), (t : Int) - u.y)) ∧
        (u.getMovementOptions tp).Nodup ∧
        ∀ d ∈ u.getMovementOptions tp, d.1 = 1) ∧
    (∀ (u : Unit) (tp : Nat), u.x = -1 → u.type = .sprinter →
        u.getMovementOptions tp
          = ((List.range tp).flatMap fun (t : Nat) =>
              [((1 : Int), (t : Int) - u.y), ((2 : Int), (t : Int) - u.y)]) ∧
        (u.getMovementOptions tp).Nodup ∧
        ∀ d ∈ u.getMovementOptions tp, d.1 = 1 ∨ d.1 = 2) ∧
    (∀ (u : Unit) (tp : Nat), u.x = -1 → u.type = .jumper →
        u.getMovementOptions tp = ((List.range tp).map fun (t : Nat) => ((2 : Int), (t : Int) - u.y)) ∧
        (u.getMovementOptions tp).Nodup ∧
        ∀ d ∈ u.getMovementOptions tp, d.1 = 2) ∧
    (∀ (u : Unit) (tp : Nat), u.type = .jumper → 0 ≤ u.x →
        ∀ d ∈ u.getMovementOptions tp, d.1.natAbs ≠ 1 ∧ d.2.natAbs ≠ 1) := by
  refine ⟨?_, ?_, ?_, ?_, ?_, ?_, ?_, ?_, ?_, ?_, ?_⟩
  · intro u tp hk hx
    rw [moveOpts_basicLike_mid u tp hk hx]
    exact ⟨rfl, by decide⟩
  · intro u tp hk hx
    rw [moveOpts_basicLike_zero u tp hk hx]
    exact ⟨rfl, by decide⟩
  · intro u tp hk hx
    rw [moveOpts_sprinter_mid u tp hk hx]
    exact ⟨rfl, by decide⟩
  · intro u tp hk hx
    rw [moveOpts_sprinter_one u tp hk hx]
    exact ⟨rfl, by decide⟩
  · intro u tp hk hx
    rw [moveOpts_sprinter_zero u tp hk hx]
    exact ⟨rfl, by decide⟩
  · intro u tp hk hx
    rw [moveOpts_jumper_mid u tp hk hx]
    exact ⟨rfl, by decide⟩
  · intro u tp hk hx
    rw [moveOpts_jumper_low u tp hk hx]
    exact ⟨rfl, by decide⟩
  · intro u tp hx hk
    rw [moveOpts_spawn_basicLike u tp hx hk]
    refine ⟨rfl, nodup_spawn_map 1 u.y tp, ?_⟩
    intro d hd
    rcases List.mem_map.mp hd with ⟨t, _, ht⟩
    rw [← ht]
  · intro u tp hx hk
    rw [moveOpts_spawn_sprinter u tp hx hk]
    refine ⟨rfl, nodup_spawn_sprinter u.y tp, ?_⟩
    intro d hd
    rcases List.mem_flatMap.mp hd with ⟨t, _, ht⟩
    rcases List.mem_cons.mp ht with h | h
    · left; rw [h]
    · right; rw [List.mem_singleton.mp h]
  · intro u tp hx hk
    rw [moveOpts_spawn_jumper u tp hx hk]
    refine ⟨rfl, nodup_spawn_map 2 u.y tp, ?_⟩
    intro d hd
    rcases List.mem_map.mp hd with ⟨t, _, ht⟩
    rw [← ht]
  · intro u tp hk hx
    rcases lt_or_le 1 u.x with h2 | h2
    · rw [moveOpts_jumper_mid u tp hk h2]
      decide
    · have hlow : u.x = 0 ∨ u.x = 1 := by omega
      rw [moveOpts_jumper_low u tp hk hlow]
      decide

/-- Counterexample to C5 as stated: a jumper on the board at column 1 is
away from the spawn zone, yet its offset set lacks the two-tile jump
`(-2, 0)` — it does not have all eight two-tile offsets. -/
theorem C5_counterexample :
    (0 : Int) ≤ (Unit.mk .jumper 1 0 true true false false).x ∧
    ((-2, 0) : Int × Int) ∉ (Unit.mk .jumper 1 0 true true false false).getMovementOptions 4 := by
  decide

/-! ### Units and board bookkeeping lemmas -/

theorem Units.get_set (us : Units) (k k' : UnitType) (u : Unit) :
    (us.set k u).get k' = if k' = k then u else us.get k' := by
  cases k <;> cases k' <;> simp [Units.get, Units.set]

theorem Units.get_set_same (us : Units) (k : UnitType) (u : Unit) :
    (us.set k u).get k = u := by
  rw [Units.get_set, if_pos rfl]

theorem Units.get_set_ne (us : Units) (k k' : UnitType) (u : Unit) (h : k' ≠ k) :
    (us.set k u).get k' = us.get k' := by
  rw [Units.get_set, if_neg h]

theorem Board.isValid_iff_not_guard (b : Board) (x y : Int) :
    b.isValidPosition x y ↔ ¬(x < 0 ∨ b.maxColumn < x ∨ y < 0 ∨ (b.totalPaths : Int) ≤ y) := by
  unfold Board.isValidPosition
  omega

theorem Board.getTile_eq_none_of_invalid (b : Board) (x y : Int)
    (h : ¬b.isValidPosition x y) : b.getTile x y = none := by
  rw [Board.getTile, if_pos]
  rw [Board.isValid_iff_not_guard] at h
  exact not_not.mp h

theorem Board.isValid_of_getTile {b : Board} {x y : Int} {t : Tile}
    (h : b.getTile x y = some t) : b.isValidPosition x y := by
  by_contra hv
  rw [Board.getTile_eq_none_of_invalid b x y hv] at h
  exact Option.noConfusion h

theorem Board.getTile_valid_unfold (b : Board) (x y : Int) (h : b.isValidPosition x y) :
    b.getTile x y =
      match b.columns[x.toNat]? with
      | none => none
      | some col => col[y.toNat]? := by
  rw [Board.getTile, if_neg]
  rw [Board.isValid_iff_not_guard] at h
  exact h

theorem Board.maxColumn_updateTile (b : Board) (x y : Int) (f : Tile → Tile) :
    (b.updateTile x y f).maxColumn = b.maxColumn := by
  rw [Board.updateTile]
  cases b.getTile x y <;> rfl

theorem Board.totalPaths_updateTile (b : Board) (x y : Int) (f : Tile → Tile) :
    (b.updateTile x y f).totalPaths = b.totalPaths := by
  rw [Board.updateTile]
  cases b.getTile x y <;> rfl

theorem Board.isValid_updateTile (b : Board) (x y : Int) (f : Tile → Tile) (x' y' : Int) :
    (b.updateTile x y f).isValidPosition x' y' ↔ b.isValidPosition x' y' := by
  unfold Board.isValidPosition
  rw [Board.maxColumn_updateTile, Board.totalPaths_updateTile]

theorem Board.getTile_updateTile_same (b : Board) (x y : Int) (f : Tile → Tile) :
    (b.updateTile x y f).getTile x y = (b.getTile x y).map f := by
  cases hg : b.getTile x y with
  | none =>
    have hb : b.updateTile x y f = b := by rw [Board.updateTile, hg]
    rw [hb, hg]
    rfl
  | some t =>
    have hvalid := Board.isValid_of_getTile hg
    have hcols : (b.updateTile x y f).columns
        = listModify b.columns x.toNat (fun col => listModify col y.toNat f) := by
      rw [Board.updateTile, hg]
    have hvu := Board.getTile_valid_unfold (b.updateTile x y f) x y
      ((Board.isValid_updateTile b x y f x y).mpr hvalid)
    have hvb := Board.getTile_valid_unfold b x y hvalid
    have hmatch : (match b.columns[x.toNat]? with
        | none => none
        | some col => col[y.toNat]?) = some t := by
      rw [← hvb]
      exact hg
    rw [hvu, hcols, listModify_getElem?, if_pos rfl]
    cases hc : b.columns[x.toNat]? with
    | none =>
      rw [hc] at hmatch
      exact Option.noConfusion hmatch
    | some col =>
      rw [hc] at hmatch
      have hcol : col[y.toNat]? = some t := hmatch
      simp only [Option.map_some']
      rw [listModify_getElem?, if_pos rfl, hcol]
      rfl

theorem Board.getTile_updateTile_ne (b : Board) (x y : Int) (f : Tile → Tile)
    (x' y' : Int) (hne : ¬(x' = x ∧ y' = y)) :
    (b.updateTile x y f).getTile x' y' = b.getTile x' y' := by
  cases hg : b.getTile x y with
  | none =>
    have hb : b.updateTile x y f = b := by rw [Board.updateTile, hg]
    rw [hb]
  | some t =>
    have hvalid := Board.isValid_of_getTile hg
    have hcols : (b.updateTile x y f).columns
        = listModify b.columns x.toNat (fun col => listModify col y.toNat f) := by
      rw [Board.updateTile, hg]
    by_cases hv' : b.isValidPosition x' y'
    · have hvu := Board.getTile_valid_unfold (b.updateTile x y f) x' y'
        ((Board.isValid_updateTile b x y f x' y').mpr hv')
      have hvb := Board.getTile_valid_unfold b x' y' hv'
      have hx0 : 0 ≤ x := hvalid.1
      have hy0 : 0 ≤ y := hvalid.2.2.1
      have hx0' : 0 ≤ x' := hv'.1
      have hy0' : 0 ≤ y' := hv'.2.2.1
      rw [hvu, hvb, hcols, listModify_getElem?]
      by_cases hxx : x = x'
      · have hxn : x.toNat = x'.toNat := by omega
        have hyne : ¬y.toNat = y'.toNat := by
          have : ¬y' = y := fun hy => hne ⟨hxx.symm, hy⟩
          omega
        rw [if_pos hxn]
        cases hc : b.columns[x'.toNat]? with
        | none => rfl
        | some col =>
          simp only [Option.map_some']
          show (listModify col y.toNat f)[y'.toNat]? = col[y'.toNat]?
          rw [listModify_getElem?, if_neg hyne]
      · have hxn : ¬x.toNat = x'.toNat := by omega
        rw [if_neg hxn]
    · have hv'u : ¬(b.updateTile x y f).isValidPosition x' y' := by
        rw [Board.isValid_updateTile]
        exact hv'
      rw [Board.getTile_eq_none_of_invalid _ x' y' hv'u,
          Board.getTile_eq_none_of_invalid b x' y' hv']

theorem Board.getTile_updateTile (b : Board) (x y : Int) (f : Tile → Tile) (x' y' : Int) :
    (b.updateTile x y f).getTile x' y'
      = if x' = x ∧ y' = y then (b.getTile x y).map f else b.getTile x' y' := by
  by_cases hxy : x' = x ∧ y' = y
  · rcases hxy with ⟨rfl, rfl⟩
    rw [if_pos ⟨rfl, rfl⟩]
    exact Board.getTile_updateTile_same b x' y' f
  · rw [if_neg hxy]
    exact Board.getTile_updateTile_ne b x y f x' y' hxy

theorem Board.getTile_setTileHasUnit (b : Board) (x y : Int) (hu : Bool) (x' y' : Int) :
    (b.setTileHasUnit x y hu).getTile x' y'
      = if x' = x ∧ y' = y then (b.getTile x y).map (fun t => { t with hasUnit := hu })
        else b.getTile x' y' :=
  Board.getTile_updateTile b x y _ x' y'

theorem Board.getTile_revealTile (b : Board) (x y : Int) (x' y' : Int) :
    (b.revealTile x y).getTile x' y'
      = if x' = x ∧ y' = y then (b.getTile x y).map Tile.reveal else b.getTile x' y' :=
  Board.getTile_updateTile b x y _ x' y'

theorem Board.getTile_mapTiles (b : Board) (f : Tile → Tile) (x y : Int) :
    (b.mapTiles f).getTile x y = (b.getTile x y).map f := by
  unfold Board.mapTiles Board.getTile
  simp only []
  by_cases hguard : x < 0 ∨ b.maxColumn < x ∨ y < 0 ∨ (b.totalPaths : Int) ≤ y
  · rw [if_pos hguard, if_pos hguard]
    rfl
  · rw [if_neg hguard, if_neg hguard, List.getElem?_map]
    cases b.columns[x.toNat]? with
    | none => rfl
    | some col =>
      show (List.map f col)[y.toNat]? = Option.map f col[y.toNat]?
      rw [List.getElem?_map]

theorem Board.maxColumn_mapTiles (b : Board) (f : Tile → Tile) :
    (b.mapTiles f).maxColumn = b.maxColumn := rfl

theorem Board.totalPaths_mapTiles (b : Board) (f : Tile → Tile) :
    (b.mapTiles f).totalPaths = b.totalPaths := rfl

/-! ### moveUnit machinery -/

theorem not_zero_mem_moveOpts (u : Unit) (tp : Nat) :
    ((0 : Int), (0 : Int)) ∉ u.getMovementOptions tp := by
  obtain ⟨ty0, x0, y0, al, sp, tr, cr⟩ := u
  intro hmem
  unfold Unit.getMovementOptions at hmem
  simp only [] at hmem
  by_cases hx : x0 = -1
  · rw [if_pos hx] at hmem
    by_cases hs : ty0 = UnitType.sprinter
    · rw [if_pos hs] at hmem
      rcases List.mem_flatMap.mp hmem with ⟨t, _, ht⟩
      rcases List.mem_cons.mp ht with h | h
      · exact absurd (congrArg Prod.fst h) (by simp)
      · exact absurd (congrArg Prod.fst (List.mem_singleton.mp h)) (by simp)
    · rw [if_neg hs] at hmem
      by_cases hj : ty0 = UnitType.jumper
      · rw [if_pos hj] at hmem
        rcases List.mem_map.mp hmem with ⟨t, _, ht⟩
        exact absurd (congrArg Prod.fst ht) (by simp)
      · rw [if_neg hj] at hmem
        rcases List.mem_map.mp hmem with ⟨t, _, ht⟩
        exact absurd (congrArg Prod.fst ht) (by simp)
  · rw [if_neg hx] at hmem
    revert hmem
    cases ty0 <;> simp only [] <;> split_ifs <;> decide

theorem moveUnit_eq_exec (s : GameState) (ut : UnitType) (tx ty : Int)
    (halive : (s.units.get ut).alive = true)
    (htrap : (s.units.get ut).trapped = false)
    (hgold : ¬s.gold < ((s.units.get ut).getMoveCost s.config : Int))
    (hmv : (tx - (s.units.get ut).x, ty - (s.units.get ut).y)
        ∈ (s.units.get ut).getMovementOptions s.config.totalPaths)
    (hocc : ¬∃ k ∈ allUnitTypes, k ≠ ut ∧ (s.units.get k).alive = true ∧
        (s.units.get k).x = tx ∧ (s.units.get k).y = ty)
    (hvalid : s.board.isValidPosition tx ty)
    (hnend : ¬s.board.isDefenseEndzone tx) :
    s.moveUnit ut tx ty
      = s.moveUnitExec ut tx ty ((s.units.get ut).getMoveCost s.config : Int) := by
  simp only [GameState.moveUnit]
  rw [if_neg (by simp [halive]), if_neg (by simp [htrap]), if_neg hgold,
      if_neg (not_not_intro hmv), if_neg (not_not_intro (Or.inl hvalid)),
      if_neg hocc, if_neg hnend]

/-- The target of an accepted move differs from the unit's prior
coordinates (no legal offset is `(0,0)`). -/
theorem move_target_ne_old (s : GameState) (ut : UnitType) (tx ty : Int)
    (hmv : (tx - (s.units.get ut).x, ty - (s.units.get ut).y)
        ∈ (s.units.get ut).getMovementOptions s.config.totalPaths) :
    ¬(tx = (s.units.get ut).x ∧ ty = (s.units.get ut).y) := by
  rintro ⟨rfl, rfl⟩
  simp only [sub_self] at hmv
  exact not_zero_mem_moveOpts _ _ hmv

theorem Units.set_set (us : Units) (k : UnitType) (u v : Unit) :
    (us.set k u).set k v = us.set k v := by
  cases k <;> rfl

theorem Units.set_get (us : Units) (k : UnitType) :
    us.set k (us.get k) = us := by
  cases k <;> rfl

theorem moveUnitExec_wall_spec (s : GameState) (ut : UnitType) (tx ty cost : Int) (t : Tile)
    (hget : s.board.getTile tx ty = some t)
    (ht : t.type = TileType.wall)
    (hne0 : ¬(tx = (s.units.get ut).x ∧ ty = (s.units.get ut).y)) :
    (s.moveUnitExec ut tx ty cost).1 = MoveResult.wallBlocked ∧
    (s.moveUnitExec ut tx ty cost).2.gold = s.gold - cost ∧
    (s.moveUnitExec ut tx ty cost).2.units = s.units ∧
    (s.moveUnitExec ut tx ty cost).2.board.getTile tx ty
      = some (if (s.units.get ut).isJumpMove (tx - (s.units.get ut).x) (ty - (s.units.get ut).y)
                  = false
              then t.reveal else t) ∧
    (s.moveUnitExec ut tx ty cost).2.board.getTile (s.units.get ut).x (s.units.get ut).y
      = (s.board.getTile (s.units.get ut).x (s.units.get ut).y).map
          (fun tt => { tt with hasUnit := true }) ∧
    (s.moveUnitExec ut tx ty cost).2.phase = s.phase ∧
    (s.moveUnitExec ut tx ty cost).2.gameOver = s.gameOver := by
  have hne2 : ¬((s.units.get ut).x = tx ∧ (s.units.get ut).y = ty) := by
    intro h
    exact hne0 ⟨h.1.symm, h.2.symm⟩
  by_cases hold : s.board.isValidPosition (s.units.get ut).x (s.units.get ut).y
  · by_cases hrev : (s.units.get ut).isJumpMove (tx - (s.units.get ut).x)
        (ty - (s.units.get ut).y) = false
    · have htile : (((s.board.setTileHasUnit (s.units.get ut).x (s.units.get ut).y
          false).getTile tx ty).getD defaultTile) = t := by
        rw [Board.getTile_setTileHasUnit, if_neg hne0, hget]
        rfl
      have hvalid2 : (((s.board.setTileHasUnit (s.units.get ut).x (s.units.get ut).y
            false).revealTile tx ty)).isValidPosition (s.units.get ut).x (s.units.get ut).y := by
        rw [Board.revealTile, Board.setTileHasUnit, Board.isValid_updateTile,
            Board.isValid_updateTile]
        exact hold
      simp only [GameState.moveUnitExec, if_pos hold, if_pos hrev, htile, if_pos ht,
        if_pos hvalid2]
      refine ⟨trivial, trivial, ?_, ?_, ?_, trivial, trivial⟩
      · rw [Units.set_set, Units.get_set_same]
        exact Units.set_get s.units ut
      · rw [Board.getTile_setTileHasUnit, if_neg hne0, Board.getTile_revealTile,
            if_pos ⟨rfl, rfl⟩, Board.getTile_setTileHasUnit, if_neg hne0, hget]
        rfl
      · rw [Board.getTile_setTileHasUnit, if_pos ⟨rfl, rfl⟩, Board.getTile_revealTile,
            if_neg hne2, Board.getTile_setTileHasUnit, if_pos ⟨rfl, rfl⟩]
        cases s.board.getTile (s.units.get ut).x (s.units.get ut).y <;> rfl
    · have htile : (((s.board.setTileHasUnit (s.units.get ut).x (s.units.get ut).y
          false).getTile tx ty).getD defaultTile) = t := by
        rw [Board.getTile_setTileHasUnit, if_neg hne0, hget]
        rfl
      have hvalid2 : ((s.board.setTileHasUnit (s.units.get ut).x (s.units.get ut).y
            false)).isValidPosition (s.units.get ut).x (s.units.get ut).y := by
        rw [Board.setTileHasUnit, Board.isValid_updateTile]
        exact hold
      simp only [GameState.moveUnitExec, if_pos hold, if_neg hrev, htile, if_pos ht,
        if_pos hvalid2]
      refine ⟨trivial, trivial, ?_, ?_, ?_, trivial, trivial⟩
      · rw [Units.set_set, Units.get_set_same]
        exact Units.set_get s.units ut
      · rw [Board.getTile_setTileHasUnit, if_neg hne0, Board.getTile_setTileHasUnit,
            if_neg hne0, hget]
      · rw [Board.getTile_setTileHasUnit, if_pos ⟨rfl, rfl⟩, Board.getTile_setTileHasUnit,
            if_pos ⟨rfl, rfl⟩]
        cases s.board.getTile (s.units.get ut).x (s.units.get ut).y <;> rfl
  · by_cases hrev : (s.units.get ut).isJumpMove (tx - (s.units.get ut).x)
        (ty - (s.units.get ut).y) = false
    · have htile : ((s.board.getTile tx ty).getD defaultTile) = t := by
        rw [hget]
        rfl
      have hvalid2 : ¬(s.board.revealTile tx ty).isValidPosition
          (s.units.get ut).x (s.units.get ut).y := by
        rw [Board.revealTile, Board.isValid_updateTile]
        exact hold
      simp only [GameState.moveUnitExec, if_neg hold, if_pos hrev, htile, if_pos ht,
        if_neg hvalid2]
      refine ⟨trivial, trivial, ?_, ?_, ?_, trivial, trivial⟩
      · rw [Units.set_set, Units.get_set_same]
        exact Units.set_get s.units ut
      · rw [Board.getTile_revealTile, if_pos ⟨rfl, rfl⟩, hget]
        rfl
      · rw [Board.getTile_revealTile, if_neg hne2]
        rw [Board.getTile_eq_none_of_invalid s.board _ _ hold]
        rfl
    · have htile : ((s.board.getTile tx ty).getD defaultTile) = t := by
        rw [hget]
        rfl
      simp only [GameState.moveUnitExec, if_neg hold, if_neg hrev, htile, if_pos ht]
      refine ⟨trivial, trivial, ?_, ?_, ?_, trivial, trivial⟩
      · rw [Units.set_set, Units.get_set_same]
        exact Units.set_get s.units ut
      · exact hget
      · rw [Board.getTile_eq_none_of_invalid s.board _ _ hold]
        rfl

theorem moveUnitExec_ok_spec (s : GameState) (ut : UnitType) (tx ty cost : Int) (t : Tile)
    (hget : s.board.getTile tx ty = some t)
    (htw : ¬t.type = TileType.wall)
    (hne0 : ¬(tx = (s.units.get ut).x ∧ ty = (s.units.get ut).y)) :
    s.moveUnitExec ut tx ty cost
      = (MoveResult.ok (if t.revealed = true then Effect.empty
            else t.applyEffect (tx - (s.units.get ut).x) (ty - (s.units.get ut).y)),
         GameState.applyMoveEffects
           { s with
               board :=
                 (if (s.units.get ut).isJumpMove (tx - (s.units.get ut).x)
                      (ty - (s.units.get ut).y) = false
                  then (if s.board.isValidPosition (s.units.get ut).x (s.units.get ut).y
                        then s.board.setTileHasUnit (s.units.get ut).x (s.units.get ut).y false
                        else s.board).revealTile tx ty
                  else (if s.board.isValidPosition (s.units.get ut).x (s.units.get ut).y
                        then s.board.setTileHasUnit (s.units.get ut).x (s.units.get ut).y false
                        else s.board)).setTileHasUnit tx ty true,
               gold := s.gold - cost,
               units := s.units.set ut ((s.units.get ut).moveTo tx ty) }
           ut tx ty
           (if t.revealed = true then Effect.empty
            else t.applyEffect (tx - (s.units.get ut).x) (ty - (s.units.get ut).y))) := by
  by_cases hold : s.board.isValidPosition (s.units.get ut).x (s.units.get ut).y
  · by_cases hrev : (s.units.get ut).isJumpMove (tx - (s.units.get ut).x)
        (ty - (s.units.get ut).y) = false
    · have htile : (((s.board.setTileHasUnit (s.units.get ut).x (s.units.get ut).y
          false).getTile tx ty).getD defaultTile) = t := by
        rw [Board.getTile_setTileHasUnit, if_neg hne0, hget]
        rfl
      simp only [GameState.moveUnitExec, if_pos hold, if_pos hrev, htile, if_neg htw]
    · have htile : (((s.board.setTileHasUnit (s.units.get ut).x (s.units.get ut).y
          false).getTile tx ty).getD defaultTile) = t := by
        rw [Board.getTile_setTileHasUnit, if_neg hne0, hget]
        rfl
      simp only [GameState.moveUnitExec, if_pos hold, if_neg hrev, htile, if_neg htw]
  · by_cases hrev : (s.units.get ut).isJumpMove (tx - (s.units.get ut).x)
        (ty - (s.units.get ut).y) = false
    · have htile : ((s.board.getTile tx ty).getD defaultTile) = t := by
        rw [hget]
        rfl
      simp only [GameState.moveUnitExec, if_neg hold, if_pos hrev, htile, if_neg htw]
    · have htile : ((s.board.getTile tx ty).getD defaultTile) = t := by
        rw [hget]
        rfl
      simp only [GameState.moveUnitExec, if_neg hold, if_neg hrev, htile, if_neg htw]

theorem foldl_preserves {β : Type} (P : GameState → Prop) (f : GameState → β → GameState)
    (l : List β) (s : GameState) (hstep : ∀ st b, P st → P (f st b)) (hs : P s) :
    P (l.foldl f s) := by
  induction l generalizing s with
  | nil => exact hs
  | cons a rest ih => exact ih (f s a) (hstep s a hs)

theorem trigger_preserves_gold :
    ∀ (n : Nat) (s : GameState) (x y : Int),
      (GameState.triggerBombFueled n s x y).gold = s.gold := by
  intro n
  induction n with
  | zero => intro s x y; rfl
  | succ m ih =>
    intro s x y
    simp only [GameState.triggerBombFueled]
    refine foldl_preserves (fun st => st.gold = s.gold) _ _ _ ?_
      (foldl_preserves (fun st => st.gold = s.gold) _ _ _ ?_ rfl)
    · intro st p h
      exact h
    · intro st k h
      split_ifs <;>
        first
          | exact h
          | exact (ih st ((st.units.get k).x) ((st.units.get k).y)).trans h

theorem moveKillStep_gold (s : GameState) (ut : UnitType) (tx ty : Int) (eff : Effect) :
    (s.moveKillStep ut tx ty eff).gold = s.gold := by
  unfold GameState.moveKillStep
  split_ifs with h1 h2 <;>
    simp only [GameState.triggerBombEffect, trigger_preserves_gold]

theorem moveCageStep_gold (s : GameState) (ut : UnitType) (tx ty : Int) (eff : Effect) :
    (s.moveCageStep ut tx ty eff).gold = s.gold := by
  unfold GameState.moveCageStep
  split_ifs with h1
  · split <;> rfl
  · rfl

theorem moveTreasureStep_gold (s : GameState) (tx ty : Int) (eff : Effect) :
    (s.moveTreasureStep tx ty eff).gold
      = s.gold + (if eff.treasure = true then 4 else 0) := by
  unfold GameState.moveTreasureStep
  split_ifs with h1 <;> simp

theorem moveBombStep_gold (s : GameState) (tx ty : Int) (eff : Effect) :
    (s.moveBombStep tx ty eff).gold = s.gold := by
  unfold GameState.moveBombStep
  split_ifs with h1 <;>
    simp only [GameState.triggerBombEffect, trigger_preserves_gold]

theorem movePushStep_gold (s : GameState) (ut : UnitType) (tx ty : Int) (eff : Effect) :
    (s.movePushStep ut tx ty eff).gold = s.gold := by
  rcases hp : eff.pushed with _ | pd
  · simp only [GameState.movePushStep, hp]
  · simp only [GameState.movePushStep, hp]
    split_ifs <;> rfl

theorem applyMoveEffects_gold (s : GameState) (ut : UnitType) (tx ty : Int) (eff : Effect) :
    (s.applyMoveEffects ut tx ty eff).gold
      = s.gold + (if eff.treasure = true then 4 else 0) := by
  unfold GameState.applyMoveEffects
  rw [movePushStep_gold, moveBombStep_gold, moveTreasureStep_gold, moveCageStep_gold,
      moveKillStep_gold]

theorem getTile_revealed_updateTile (b : Board) (a c : Int) (f : Tile → Tile)
    (hf : ∀ tt, (f tt).revealed = tt.revealed) (x y : Int) :
    ((b.updateTile a c f).getTile x y).map Tile.revealed
      = (b.getTile x y).map Tile.revealed := by
  rw [Board.getTile_updateTile]
  by_cases h : x = a ∧ y = c
  · rcases h with ⟨rfl, rfl⟩
    rw [if_pos ⟨rfl, rfl⟩]
    cases b.getTile x y with
    | none => rfl
    | some tt =>
      simp only [Option.map_some']
      rw [hf]
  · rw [if_neg h]

theorem getTile_revealed_setTileHasUnit (b : Board) (a c : Int) (hu : Bool) (x y : Int) :
    ((b.setTileHasUnit a c hu).getTile x y).map Tile.revealed
      = (b.getTile x y).map Tile.revealed :=
  getTile_revealed_updateTile b a c (fun tt => { tt with hasUnit := hu }) (fun _ => rfl) x y

theorem getTile_revealed_collect (b : Board) (a c : Int) (x y : Int) :
    ((b.updateTile a c (fun tt => { tt with treasureCollected := true })).getTile x y).map
        Tile.revealed
      = (b.getTile x y).map Tile.revealed :=
  getTile_revealed_updateTile b a c (fun tt => { tt with treasureCollected := true })
    (fun _ => rfl) x y

theorem getTile_revealTile_ne (b : Board) (a c x y : Int) (h : ¬(x = a ∧ y = c)) :
    (b.revealTile a c).getTile x y = b.getTile x y :=
  Board.getTile_updateTile_ne b a c _ x y h

theorem moveKillStep_revealed (s : GameState) (ut : UnitType) (tx ty : Int) (eff : Effect)
    (hab : (s.units.get ut).hasBombAbility = false) :
    ((s.moveKillStep ut tx ty eff).board.getTile tx ty).map Tile.revealed
      = (s.board.getTile tx ty).map Tile.revealed := by
  unfold GameState.moveKillStep
  split_ifs with h1 h2
  · exact absurd h2 (by simp [hab])
  · exact getTile_revealed_setTileHasUnit s.board tx ty false tx ty
  · rfl

theorem moveCageStep_board (s : GameState) (ut : UnitType) (tx ty : Int) (eff : Effect) :
    (s.moveCageStep ut tx ty eff).board = s.board := by
  unfold GameState.moveCageStep
  split_ifs with h1
  · split <;> rfl
  · rfl

theorem moveTreasureStep_revealed (s : GameState) (tx ty : Int) (eff : Effect) (x y : Int) :
    ((s.moveTreasureStep tx ty eff).board.getTile x y).map Tile.revealed
      = (s.board.getTile x y).map Tile.revealed := by
  unfold GameState.moveTreasureStep
  split_ifs with h1
  · exact getTile_revealed_collect s.board tx ty x y
  · rfl

theorem moveBombStep_board (s : GameState) (tx ty : Int) (eff : Effect)
    (hb : eff.bomb = false) :
    (s.moveBombStep tx ty eff).board = s.board := by
  unfold GameState.moveBombStep
  rw [if_neg (by simp [hb])]

theorem movePushStep_revealed (s : GameState) (ut : UnitType) (tx ty : Int) (eff : Effect)
    (hpd : ∀ pd, eff.pushed = some pd → ¬(pd.1 = 0 ∧ pd.2 = 0)) :
    ((s.movePushStep ut tx ty eff).board.getTile tx ty).map Tile.revealed
      = (s.board.getTile tx ty).map Tile.revealed := by
  rcases hp : eff.pushed with _ | pd
  · simp only [GameState.movePushStep, hp]
  · have hne : ¬(tx = tx + pd.1 ∧ ty = ty + pd.2) := by
      rintro ⟨h1, h2⟩
      exact hpd pd hp ⟨by omega, by omega⟩
    simp only [GameState.movePushStep, hp]
    split_ifs with hv hw hk
    · rfl
    · rw [getTile_revealed_setTileHasUnit]
      rw [getTile_revealTile_ne _ _ _ _ _ hne]
      rw [getTile_revealed_setTileHasUnit, getTile_revealed_setTileHasUnit]
    · rw [getTile_revealTile_ne _ _ _ _ _ hne]
      rw [getTile_revealed_setTileHasUnit, getTile_revealed_setTileHasUnit]
    · rfl

theorem applyMoveEffects_revealed (s : GameState) (ut : UnitType) (tx ty : Int) (eff : Effect)
    (hab : (s.units.get ut).hasBombAbility = false)
    (hb : eff.bomb = false)
    (hpd : ∀ pd, eff.pushed = some pd → ¬(pd.1 = 0 ∧ pd.2 = 0)) :
    ((s.applyMoveEffects ut tx ty eff).board.getTile tx ty).map Tile.revealed
      = (s.board.getTile tx ty).map Tile.revealed := by
  unfold GameState.applyMoveEffects
  rw [movePushStep_revealed _ _ _ _ _ hpd, moveBombStep_board _ _ _ _ hb,
      moveTreasureStep_revealed, moveCageStep_board, moveKillStep_revealed _ _ _ _ _ hab]

/-- C1 (amended): an alive, non-trapped unit with enough gold making a
legal-offset move onto a wall tile gets a `blocked-by-wall` failure with the
gold-loss flag; the gold is reduced by the move cost, the unit (and every
other unit) is exactly as before, the unit's prior tile is re-marked
occupied — and the wall tile ends the operation revealed exactly when the
move was not a jump move (a jumper's jump onto a wall leaves it face-down
unless it was already revealed). -/
theorem C1_theorem (s : GameState) (ut : UnitType) (tx ty : Int) (t : Tile)
    (halive : (s.units.get ut).alive = true)
    (htrap : (s.units.get ut).trapped = false)
    (hgold : ¬s.gold < ((s.units.get ut).getMoveCost s.config : Int))
    (hmv : (tx - (s.units.get ut).x, ty - (s.units.get ut).y)
        ∈ (s.units.get ut).getMovementOptions s.config.totalPaths)
    (hocc : ¬∃ k ∈ allUnitTypes, k ≠ ut ∧ (s.units.get k).alive = true ∧
        (s.units.get k).x = tx ∧ (s.units.get k).y = ty)
    (hget : s.board.getTile tx ty = some t)
    (ht : t.type = TileType.wall) :
    (s.moveUnit ut tx ty).1.success = false ∧
    (s.moveUnit ut tx ty).1.error = some GameError.blockedByWall ∧
    (s.moveUnit ut tx ty).1.goldLost = true ∧
    (s.moveUnit ut tx ty).2.gold = s.gold - ((s.units.get ut).getMoveCost s.config : Int) ∧
    (s.moveUnit ut tx ty).2.units = s.units ∧
    (s.moveUnit ut tx ty).2.board.getTile tx ty
      = some (if (s.units.get ut).isJumpMove (tx - (s.units.get ut).x)
                  (ty - (s.units.get ut).y) = false
              then t.reveal else t) ∧
    (s.moveUnit ut tx ty).2.board.getTile (s.units.get ut).x (s.units.get ut).y
      = (s.board.getTile (s.units.get ut).x (s.units.get ut).y).map
          (fun tt => { tt with hasUnit := true }) := by
  have hvalid := Board.isValid_of_getTile hget
  have hnend : ¬s.board.isDefenseEndzone tx := by
    have h2 := hvalid.2.1
    unfold Board.isDefenseEndzone
    omega
  have heq := moveUnit_eq_exec s ut tx ty halive htrap hgold hmv hocc hvalid hnend
  have hne0 := move_target_ne_old s ut tx ty hmv
  have hspec := moveUnitExec_wall_spec s ut tx ty
    ((s.units.get ut).getMoveCost s.config : Int) t hget ht hne0
  rw [heq]
  refine ⟨?_, ?_, ?_, hspec.2.1, hspec.2.2.1, hspec.2.2.2.1, hspec.2.2.2.2.1⟩
  · rw [hspec.1]
    rfl
  · rw [hspec.1]
    rfl
  · rw [hspec.1]
    rfl

/-- Counterexample to C1 as stated: in `gsA` the jumper jumps from `(0,2)`
onto the unrevealed wall at `(2,0)`; every hypothesis of the claim holds,
the move fails with gold loss and the unit stays put, yet the wall tile is
NOT revealed after the operation. -/
theorem C1_counterexample :
    (gsA.units.get .jumper).alive = true ∧
    (gsA.units.get .jumper).trapped = false ∧
    ¬gsA.gold < ((gsA.units.get .jumper).getMoveCost gsA.config : Int) ∧
    ((2 : Int) - (gsA.units.get .jumper).x, (0 : Int) - (gsA.units.get .jumper).y)
      ∈ (gsA.units.get .jumper).getMovementOptions gsA.config.totalPaths ∧
    (gsA.board.getTile 2 0).map Tile.type = some TileType.wall ∧
    (gsA.board.getTile 2 0).map Tile.revealed = some false ∧
    (gsA.moveUnit .jumper 2 0).1.success = false ∧
    (gsA.moveUnit .jumper 2 0).1.goldLost = true ∧
    (gsA.moveUnit .jumper 2 0).2.gold = gsA.gold - 1 ∧
    ((gsA.moveUnit .jumper 2 0).2.board.getTile 2 0).map Tile.revealed = some false := by
  decide

/-- Witness for C1 (amended) at `gsC`: the basic unit walks from `(1,0)`
onto the wall at `(2,0)`; the wall ends revealed since the move is not a
jump. -/
theorem C1_witness :
    (gsC.moveUnit .basic 2 0).1.success = false ∧
    (gsC.moveUnit .basic 2 0).1.error = some GameError.blockedByWall ∧
    (gsC.moveUnit .basic 2 0).1.goldLost = true ∧
    (gsC.moveUnit .basic 2 0).2.gold = gsC.gold - ((gsC.units.get .basic).getMoveCost gsC.config : Int) ∧
    (gsC.moveUnit .basic 2 0).2.units = gsC.units ∧
    (gsC.moveUnit .basic 2 0).2.board.getTile 2 0
      = some (if (gsC.units.get .basic).isJumpMove (2 - (gsC.units.get .basic).x)
                  (0 - (gsC.units.get .basic).y) = false
              then Tile.reveal ⟨TileType.wall, 2, 0, false, false, false⟩
              else ⟨TileType.wall, 2, 0, false, false, false⟩) ∧
    (gsC.moveUnit .basic 2 0).2.board.getTile (gsC.units.get .basic).x (gsC.units.get .basic).y
      = (gsC.board.getTile (gsC.units.get .basic).x (gsC.units.get .basic).y).map
          (fun tt => { tt with hasUnit := true }) :=
  C1_theorem gsC .basic 2 0 ⟨TileType.wall, 2, 0, false, false, false⟩
    rfl rfl (by decide) (by decide) (by decide) (by decide) rfl

theorem revealed_after_revealAllTiles (s : GameState) (x y : Int) (tt : Tile)
    (h : s.revealAllTiles.board.getTile x y = some tt) : tt.revealed = true := by
  unfold GameState.revealAllTiles at h
  have h2 : (s.board.mapTiles Tile.reveal).getTile x y = some tt := h
  rw [Board.getTile_mapTiles] at h2
  rcases Option.map_eq_some'.mp h2 with ⟨t0, _, heq⟩
  rw [← heq]
  rfl

/-- C2: a unit moved to a target column beyond `maxColumn` (passing the unit,
gold, offset and occupancy validations) has its move accepted, the cost
paid, the game marked over with Offense as winner, and every tile revealed;
and a `startDefensePhase` call in the Defense phase when the supply cannot
furnish `totalPaths` tiles marks the game over with Defense as winner and
reveals every tile. -/
theorem C2_theorem :
    (∀ (s : GameState) (ut : UnitType) (tx ty : Int),
        (s.units.get ut).alive = true →
        (s.units.get ut).trapped = false →
        ¬s.gold < ((s.units.get ut).getMoveCost s.config : Int) →
        (tx - (s.units.get ut).x, ty - (s.units.get ut).y)
            ∈ (s.units.get ut).getMovementOptions s.config.totalPaths →
        (¬∃ k ∈ allUnitTypes, k ≠ ut ∧ (s.units.get k).alive = true ∧
            (s.units.get k).x = tx ∧ (s.units.get k).y = ty) →
        s.board.isDefenseEndzone tx →
        (s.moveUnit ut tx ty).1.success = true ∧
        (s.moveUnit ut tx ty).1.win = true ∧
        (s.moveUnit ut tx ty).2.gold
          = s.gold - ((s.units.get ut).getMoveCost s.config : Int) ∧
        (s.moveUnit ut tx ty).2.gameOver = true ∧
        (s.moveUnit ut tx ty).2.winner = some Winner.offense ∧
        ∀ x y tt, (s.moveUnit ut tx ty).2.board.getTile x y = some tt →
          tt.revealed = true) ∧
    (∀ s : GameState,
        s.phase = GamePhase.defense →
        ¬s.tileBag.canDraw s.config.totalPaths →
        s.startDefensePhase.1.success = false ∧
        s.startDefensePhase.2.gameOver = true ∧
        s.startDefensePhase.2.winner = some Winner.defense ∧
        ∀ x y tt, s.startDefensePhase.2.board.getTile x y = some tt →
          tt.revealed = true) := by
  constructor
  · intro s ut tx ty halive htrap hgold hmv hocc hend
    have heq : s.moveUnit ut tx ty
        = (MoveResult.winResult,
           GameState.revealAllTiles
             { s with gold := s.gold - ((s.units.get ut).getMoveCost s.config : Int),
                      gameOver := true, winner := some Winner.offense }) := by
      simp only [GameState.moveUnit]
      rw [if_neg (by simp [halive]), if_neg (by simp [htrap]), if_neg hgold,
          if_neg (not_not_intro hmv), if_neg (not_not_intro (Or.inr hend)),
          if_neg hocc, if_pos hend]
    rw [heq]
    refine ⟨rfl, rfl, rfl, rfl, rfl, ?_⟩
    intro x y tt h
    exact revealed_after_revealAllTiles _ x y tt h
  · intro s hph hcant
    have heq : s.startDefensePhase
        = (⟨false, [], some GameError.noTilesDefenseWins⟩,
           GameState.revealAllTiles
             { s with gameOver := true, winner := some Winner.defense }) := by
      simp only [GameState.startDefensePhase]
      rw [if_neg (by simp [hph]), if_pos hcant]
    rw [heq]
    refine ⟨rfl, rfl, rfl, ?_⟩
    intro x y tt h
    exact revealed_after_revealAllTiles _ x y tt h

/-- Witness for C2: the basic unit of `gsE` steps from `(2,3)` into the goal
column 3, winning for Offense; and `gsF` (exhausted supply) ends the game
for Defense on `startDefensePhase`. -/
theorem C2_witness :
    ((gsE.moveUnit .basic 3 3).2.gameOver = true ∧
     (gsE.moveUnit .basic 3 3).2.winner = some Winner.offense) ∧
    (gsF.startDefensePhase.2.gameOver = true ∧
     gsF.startDefensePhase.2.winner = some Winner.defense) := by
  have h1 := C2_theorem.1 gsE .basic 3 3 rfl rfl (by decide) (by decide) (by decide)
    (by decide)
  have h2 := C2_theorem.2 gsF rfl (by decide)
  exact ⟨⟨h1.2.2.2.1, h1.2.2.2.2.1⟩, ⟨h2.2.1, h2.2.2.1⟩⟩

theorem get_enable_foldl (us : Units) (k : UnitType) :
    (allUnitTypes.foldl (fun acc j => acc.set j (acc.get j).enableRespawn) us).get k
      = (us.get k).enableRespawn := by
  cases k <;> rfl

/-- C3: on the first cycle, the first `endDefensePhase` call leaves the
phase at Defense (turn counter 1, gold and units untouched); every other
call switches to Offense, resets the counter, clears the first-cycle flag,
grants `goldPerTurn` plus one gold per living, non-trapped unit with
`x > -1`, and marks every dead unit eligible to respawn; with exactly two
such units the grant is `goldPerTurn + 2`. -/
theorem C3_theorem :
    (∀ s : GameState,
        s.firstCycle = true → s.defenseTurnCount = 0 → s.phase = GamePhase.defense →
        s.endDefensePhase.phase = GamePhase.defense ∧
        s.endDefensePhase.defenseTurnCount = 1 ∧
        s.endDefensePhase.gold = s.gold ∧
        s.endDefensePhase.firstCycle = true ∧
        s.endDefensePhase.units = s.units) ∧
    (∀ s : GameState,
        ¬(s.firstCycle = true ∧ s.defenseTurnCount = 0) →
        s.endDefensePhase.phase = GamePhase.offense ∧
        s.endDefensePhase.defenseTurnCount = 0 ∧
        s.endDefensePhase.firstCycle = false ∧
        s.endDefensePhase.gold = s.gold + s.config.goldPerTurn +
          (((s.units.values.filter fun u =>
              u.alive && decide (-1 < u.x) && !u.trapped).length : Int)) ∧
        ∀ k : UnitType, (s.units.get k).alive = false →
          (s.endDefensePhase.units.get k).canRespawn = true) ∧
    (∀ s : GameState,
        ¬(s.firstCycle = true ∧ s.defenseTurnCount = 0) →
        (s.units.values.filter fun u =>
            u.alive && decide (-1 < u.x) && !u.trapped).length = 2 →
        s.endDefensePhase.gold = s.gold + s.config.goldPerTurn + 2) := by
  have hsecond : ∀ s : GameState, ¬(s.firstCycle = true ∧ s.defenseTurnCount = 0) →
      s.endDefensePhase.phase = GamePhase.offense ∧
      s.endDefensePhase.defenseTurnCount = 0 ∧
      s.endDefensePhase.firstCycle = false ∧
      s.endDefensePhase.gold = s.gold + s.config.goldPerTurn +
        (((s.units.values.filter fun u =>
            u.alive && decide (-1 < u.x) && !u.trapped).length : Int)) ∧
      ∀ k : UnitType, (s.units.get k).alive = false →
        (s.endDefensePhase.units.get k).canRespawn = true := by
    intro s hb
    have hcond : ¬(s.firstCycle = true ∧ s.defenseTurnCount + 1 < 2) := by
      rintro ⟨h1, h2⟩
      exact hb ⟨h1, by omega⟩
    simp only [GameState.endDefensePhase]
    rw [if_neg hcond]
    refine ⟨rfl, rfl, rfl, rfl, ?_⟩
    intro k hdead
    rw [get_enable_foldl]
    have hget : ((s.units.get k).enableRespawn).canRespawn = true := by
      rw [Unit.enableRespawn, if_pos hdead]
    exact hget
  refine ⟨?_, hsecond, ?_⟩
  · intro s h1 h2 hph
    simp only [GameState.endDefensePhase]
    rw [if_pos (show s.firstCycle = true ∧ s.defenseTurnCount + 1 < 2 from ⟨h1, by omega⟩)]
    exact ⟨hph, by rw [h2], rfl, h1, rfl⟩
  · intro s hb hcount
    have h := (hsecond s hb).2.2.2.1
    rw [hcount] at h
    exact h

/-- Witness for C3 at `gsG` (first cycle, first call) and `gsH` (second
defense turn with two units on board: grant is `4 + 2`). -/
theorem C3_witness :
    (gsG.endDefensePhase.phase = GamePhase.defense ∧
     gsG.endDefensePhase.defenseTurnCount = 1) ∧
    (gsH.endDefensePhase.phase = GamePhase.offense ∧
     gsH.endDefensePhase.gold = gsH.gold + gsH.config.goldPerTurn + 2) := by
  have h1 := C3_theorem.1 gsG rfl rfl rfl
  have h2 := (C3_theorem.2.1 gsH (by decide)).1
  have h3 := C3_theorem.2.2 gsH (by decide) (by decide)
  exact ⟨⟨h1.1, h1.2.1⟩, ⟨h2, h3⟩⟩

theorem applyEffect_treasure (t : Tile) (dx dy : Int) (h : t.type = TileType.treasure) :
    t.applyEffect dx dy = ⟨false, false, false, none, true, false⟩ := by
  unfold Tile.applyEffect
  rw [h]
  rfl

theorem applyMoveEffects_treasure (s : GameState) (ut : UnitType) (tx ty : Int) :
    s.applyMoveEffects ut tx ty ⟨false, false, false, none, true, false⟩
      = { s with gold := s.gold + 4,
                 board := s.board.updateTile tx ty
                   (fun tt => { tt with treasureCollected := true }) } := rfl

/-- C8: a non-jump move (passing all validations) onto an unrevealed
treasure tile succeeds, raises gold by the fixed bonus 4 on top of the paid
cost, marks the tile collected, and the tile is revealed and stays revealed
through the next `hideRevealedTiles`; and `hideRevealedTiles` sets
unrevealed exactly the tiles with no occupant that are not collected
treasures, leaving every other tile unchanged. -/
theorem C8_theorem :
    (∀ (s : GameState) (ut : UnitType) (tx ty : Int) (t : Tile),
      (s.units.get ut).alive = true →
      (s.units.get ut).trapped = false →
      ¬s.gold < ((s.units.get ut).getMoveCost s.config : Int) →
      (tx - (s.units.get ut).x, ty - (s.units.get ut).y)
          ∈ (s.units.get ut).getMovementOptions s.config.totalPaths →
      (¬∃ k ∈ allUnitTypes, k ≠ ut ∧ (s.units.get k).alive = true ∧
          (s.units.get k).x = tx ∧ (s.units.get k).y = ty) →
      s.board.getTile tx ty = some t →
      t.type = TileType.treasure →
      t.revealed = false →
      (s.units.get ut).isJumpMove (tx - (s.units.get ut).x) (ty - (s.units.get ut).y)
          = false →
      (s.moveUnit ut tx ty).1.success = true ∧
      (s.moveUnit ut tx ty).2.gold
        = s.gold - ((s.units.get ut).getMoveCost s.config : Int) + 4 ∧
      (s.moveUnit ut tx ty).2.board.getTile tx ty
        = some { t with revealed := true, hasUnit := true, treasureCollected := true } ∧
      ((s.moveUnit ut tx ty).2.board.hideRevealedTiles.getTile tx ty).map Tile.revealed
        = some true) ∧
    (∀ (b : Board) (x y : Int) (t' : Tile), b.getTile x y = some t' →
      b.hideRevealedTiles.getTile x y
        = some (if t'.hasUnit = false ∧
                    ¬(t'.type = TileType.treasure ∧ t'.treasureCollected = true)
                then { t' with revealed := false } else t')) := by
  have hhide : ∀ (b : Board) (x y : Int) (t' : Tile), b.getTile x y = some t' →
      b.hideRevealedTiles.getTile x y
        = some (if t'.hasUnit = false ∧
                    ¬(t'.type = TileType.treasure ∧ t'.treasureCollected = true)
                then { t' with revealed := false } else t') := by
    intro b x y t' h
    rw [Board.hideRevealedTiles, Board.getTile_mapTiles, h]
    rfl
  refine ⟨?_, hhide⟩
  intro s ut tx ty t halive htrap hgold hmv hocc hget htreasure hunrev hnotjump
  have hvalid := Board.isValid_of_getTile hget
  have hnend : ¬s.board.isDefenseEndzone tx := by
    have h2 := hvalid.2.1
    unfold Board.isDefenseEndzone
    omega
  have htw : ¬t.type = TileType.wall := by
    rw [htreasure]
    simp
  have heq := moveUnit_eq_exec s ut tx ty halive htrap hgold hmv hocc hvalid hnend
  have hne0 := move_target_ne_old s ut tx ty hmv
  have hok := moveUnitExec_ok_spec s ut tx ty
    ((s.units.get ut).getMoveCost s.config : Int) t hget htw hne0
  have heff : (if t.revealed = true then Effect.empty
      else t.applyEffect (tx - (s.units.get ut).x) (ty - (s.units.get ut).y))
      = ⟨false, false, false, none, true, false⟩ := by
    rw [if_neg (by simp [hunrev]), applyEffect_treasure t _ _ htreasure]
  rw [heq, hok, heff, applyMoveEffects_treasure]
  have hboard : ((({ s with
      board :=
        (if (s.units.get ut).isJumpMove (tx - (s.units.get ut).x)
              (ty - (s.units.get ut).y) = false
          then (if s.board.isValidPosition (s.units.get ut).x (s.units.get ut).y
                then s.board.setTileHasUnit (s.units.get ut).x (s.units.get ut).y false
                else s.board).revealTile tx ty
          else (if s.board.isValidPosition (s.units.get ut).x (s.units.get ut).y
                then s.board.setTileHasUnit (s.units.get ut).x (s.units.get ut).y false
                else s.board)).setTileHasUnit tx ty true,
      gold := s.gold - ((s.units.get ut).getMoveCost s.config : Int),
      units := s.units.set ut ((s.units.get ut).moveTo tx ty) } : GameState)).board.updateTile
        tx ty (fun tt => { tt with treasureCollected := true })).getTile tx ty
      = some { t with revealed := true, hasUnit := true, treasureCollected := true } := by
    rw [if_pos hnotjump]
    rw [Board.getTile_updateTile_same, Board.getTile_setTileHasUnit, if_pos ⟨rfl, rfl⟩,
        Board.getTile_revealTile, if_pos ⟨rfl, rfl⟩]
    by_cases hold : s.board.isValidPosition (s.units.get ut).x (s.units.get ut).y
    · rw [if_pos hold, Board.getTile_setTileHasUnit, if_neg hne0, hget]
      rfl
    · rw [if_neg hold, hget]
      rfl
  refine ⟨rfl, rfl, hboard, ?_⟩
  rw [Board.hideRevealedTiles, Board.getTile_mapTiles, hboard]
  rfl

/-- Witness for C8: the basic unit of `gsB` walks from `(0,0)` onto the
unrevealed treasure at `(1,0)`: success, gold `5 - 1 + 4`, tile collected
and revealed, still revealed after `hideRevealedTiles`. -/
theorem C8_witness :
    (gsB.moveUnit .basic 1 0).1.success = true ∧
    (gsB.moveUnit .basic 1 0).2.gold
      = gsB.gold - ((gsB.units.get .basic).getMoveCost gsB.config : Int) + 4 ∧
    (gsB.moveUnit .basic 1 0).2.board.getTile 1 0
      = some { (⟨TileType.treasure, 1, 0, false, false, false⟩ : Tile) with
                 revealed := true, hasUnit := true, treasureCollected := true } ∧
    ((gsB.moveUnit .basic 1 0).2.board.hideRevealedTiles.getTile 1 0).map Tile.revealed
      = some true :=
  C8_theorem.1 gsB .basic 1 0 ⟨TileType.treasure, 1, 0, false, false, false⟩
    rfl rfl (by decide) (by decide) (by decide) rfl rfl rfl rfl

theorem isJumpMove_type {u : Unit} {dx dy : Int} (h : u.isJumpMove dx dy = true) :
    u.type = UnitType.jumper := by
  unfold Unit.isJumpMove Unit.hasJumpAbility at h
  rcases (Bool.and_eq_true _ _).mp h with ⟨h1, _⟩
  exact beq_iff_eq.mp h1

theorem isJumpMove_nonzero {u : Unit} {dx dy : Int} (h : u.isJumpMove dx dy = true) :
    ¬(dx = 0 ∧ dy = 0) := by
  rintro ⟨rfl, rfl⟩
  unfold Unit.isJumpMove at h
  simp at h

theorem applyEffect_bomb_false (t : Tile) (dx dy : Int)
    (h : ¬t.type = TileType.bombTrap) : (t.applyEffect dx dy).bomb = false := by
  unfold Tile.applyEffect
  cases htt : t.type
  case bombTrap => exact absurd htt h
  all_goals rfl

theorem applyEffect_pushed_nonzero (t : Tile) (dx dy : Int) (hnz : ¬(dx = 0 ∧ dy = 0)) :
    ∀ pd, (t.applyEffect dx dy).pushed = some pd → ¬(pd.1 = 0 ∧ pd.2 = 0) := by
  intro pd hp
  unfold Tile.applyEffect at hp
  revert hp
  cases htt : t.type <;> intro hp
  case oilSlickTrap =>
    have hpd : (dx, dy) = pd := Option.some.inj hp
    rintro ⟨h1, h2⟩
    rw [← hpd] at h1 h2
    exact hnz ⟨h1, h2⟩
  case pushbackTrap =>
    have hpd : (-dx, -dy) = pd := Option.some.inj hp
    rintro ⟨h1, h2⟩
    rw [← hpd] at h1 h2
    exact hnz ⟨by omega, by omega⟩
  all_goals exact Option.noConfusion hp

/-- C9 (amended): a jumper move (passing all validations) onto a non-wall
tile succeeds, and the applied effect is decided by whether the tile was
revealed before the move — an unrevealed tile's full effect fires even
though a jump reveals nothing, and an already-revealed tile has no effect;
when the landing tile was unrevealed it is still unrevealed after the move,
except that a landing on a bomb trap can get revealed by a chained
explosion of an adjacent bomber (hence the bomb-trap exclusion here). -/
theorem C9_theorem (s : GameState) (ut : UnitType) (tx ty : Int) (t : Tile)
    (halive : (s.units.get ut).alive = true)
    (htrap : (s.units.get ut).trapped = false)
    (hgold : ¬s.gold < ((s.units.get ut).getMoveCost s.config : Int))
    (hmv : (tx - (s.units.get ut).x, ty - (s.units.get ut).y)
        ∈ (s.units.get ut).getMovementOptions s.config.totalPaths)
    (hocc : ¬∃ k ∈ allUnitTypes, k ≠ ut ∧ (s.units.get k).alive = true ∧
        (s.units.get k).x = tx ∧ (s.units.get k).y = ty)
    (hget : s.board.getTile tx ty = some t)
    (hjump : (s.units.get ut).isJumpMove (tx - (s.units.get ut).x)
        (ty - (s.units.get ut).y) = true)
    (htw : ¬t.type = TileType.wall)
    (htb : ¬t.type = TileType.bombTrap) :
    (s.moveUnit ut tx ty).1.success = true ∧
    (s.moveUnit ut tx ty).1.effects
      = some (if t.revealed = true then Effect.empty
              else t.applyEffect (tx - (s.units.get ut).x) (ty - (s.units.get ut).y)) ∧
    (t.revealed = false →
      ((s.moveUnit ut tx ty).2.board.getTile tx ty).map Tile.revealed = some false) := by
  have hvalid := Board.isValid_of_getTile hget
  have hnend : ¬s.board.isDefenseEndzone tx := by
    have h2 := hvalid.2.1
    unfold Board.isDefenseEndzone
    omega
  have heq := moveUnit_eq_exec s ut tx ty halive htrap hgold hmv hocc hvalid hnend
  have hne0 := move_target_ne_old s ut tx ty hmv
  have hok := moveUnitExec_ok_spec s ut tx ty
    ((s.units.get ut).getMoveCost s.config : Int) t hget htw hne0
  have htypej := isJumpMove_type hjump
  have hnz := isJumpMove_nonzero hjump
  rw [heq, hok]
  refine ⟨rfl, rfl, ?_⟩
  intro hrev0
  have heff : (if t.revealed = true then Effect.empty
      else t.applyEffect (tx - (s.units.get ut).x) (ty - (s.units.get ut).y))
      = t.applyEffect (tx - (s.units.get ut).x) (ty - (s.units.get ut).y) := by
    rw [if_neg (by simp [hrev0])]
  rw [heff]
  rw [applyMoveEffects_revealed]
  · rw [if_neg (by simp [hjump])]
    rw [getTile_revealed_setTileHasUnit]
    by_cases hold : s.board.isValidPosition (s.units.get ut).x (s.units.get ut).y
    · rw [if_pos hold, getTile_revealed_setTileHasUnit, hget]
      simp [hrev0]
    · rw [if_neg hold, hget]
      simp [hrev0]
  · rw [Units.get_set_same]
    unfold Unit.hasBombAbility Unit.moveTo
    simp [htypej]
  · exact applyEffect_bomb_false t _ _ htb
  · exact applyEffect_pushed_nonzero t _ _ hnz

/-- Counterexample to C9 as stated: in `gsA` the jumper jumps from `(0,2)`
onto the unrevealed bomb trap at `(2,2)` while the live bomber stands
adjacent at `(2,3)`; the bomb effect is applied and the chained bomber
explosion reveals the landing tile, so its revealed flag is true after the
move. -/
theorem C9_counterexample :
    (gsA.units.get .jumper).alive = true ∧
    ((2 : Int) - (gsA.units.get .jumper).x, (2 : Int) - (gsA.units.get .jumper).y)
      ∈ (gsA.units.get .jumper).getMovementOptions gsA.config.totalPaths ∧
    (gsA.units.get .jumper).isJumpMove (2 - (gsA.units.get .jumper).x)
      (2 - (gsA.units.get .jumper).y) = true ∧
    (gsA.board.getTile 2 2).map Tile.revealed = some false ∧
    (gsA.moveUnit .jumper 2 2).1.success = true ∧
    ((gsA.moveUnit .jumper 2 2).2.board.getTile 2 2).map Tile.revealed = some true := by
  decide

/-- Witness for C9 (amended): the jumper of `gsA` jumps from `(0,2)` onto
the unrevealed blank tile at `(0,0)`; the blank effect applies and the tile
stays unrevealed. -/
theorem C9_witness :
    (gsA.moveUnit .jumper 0 0).1.success = true ∧
    (gsA.moveUnit .jumper 0 0).1.effects
      = some (if (⟨TileType.blank, 0, 0, false, false, false⟩ : Tile).revealed = true
              then Effect.empty
              else Tile.applyEffect ⟨TileType.blank, 0, 0, false, false, false⟩
                (0 - (gsA.units.get .jumper).x) (0 - (gsA.units.get .jumper).y)) ∧
    (Tile.revealed ⟨TileType.blank, 0, 0, false, false, false⟩ = false →
      ((gsA.moveUnit .jumper 0 0).2.board.getTile 0 0).map Tile.revealed = some false) :=
  C9_theorem gsA .jumper 0 0 ⟨TileType.blank, 0, 0, false, false, false⟩
    rfl rfl (by decide) (by decide) (by decide) rfl rfl (by decide) (by decide)

theorem spawnUnit_spec (s : GameState) (k : UnitType)
    (hdead : (s.units.get k).alive = false)
    (hresp : (s.units.get k).canRespawn = true)
    (hgold : ¬s.gold < ((s.units.get k).getSpawnCost s.config : Int))
    (hocc : ¬∃ j ∈ allUnitTypes, (s.units.get j).alive = true ∧ (s.units.get j).x = -1 ∧
        (s.units.get j).spawned = true) :
    s.spawnUnit k
      = (⟨true, none⟩,
         { s with gold := s.gold - ((s.units.get k).getSpawnCost s.config : Int),
                  units := s.units.set k ((s.units.get k).spawn 0) }) := by
  simp only [GameState.spawnUnit]
  rw [if_neg (by simp [hdead]), if_neg (by simp [hresp]), if_neg hgold, if_neg hocc]

theorem moveUnit_no_wrongPhase (s : GameState) (ut : UnitType) (tx ty : Int) :
    ¬(s.moveUnit ut tx ty).1.error = some GameError.wrongPhase := by
  have hexec : ∀ cost, ¬(s.moveUnitExec ut tx ty cost).1.error = some GameError.wrongPhase := by
    intro cost
    simp only [GameState.moveUnitExec]
    split_ifs <;> simp [MoveResult.wallBlocked, MoveResult.ok]
  simp only [GameState.moveUnit]
  split_ifs <;>
    first
      | exact hexec _
      | simp [MoveResult.fail, MoveResult.winResult]

theorem spawnUnit_no_wrongPhase (s : GameState) (k : UnitType) :
    ¬(s.spawnUnit k).1.error = some GameError.wrongPhase := by
  simp only [GameState.spawnUnit]
  split_ifs <;> simp

theorem effect_treasure_ite (t : Tile) (dx dy : Int) :
    (if (if t.revealed = true then Effect.empty else t.applyEffect dx dy).treasure = true
     then (4 : Int) else 0)
      = (if t.type = TileType.treasure ∧ t.revealed = false then (4 : Int) else 0) := by
  by_cases hrev : t.revealed = true
  · rw [if_pos hrev]
    simp [Effect.empty, hrev]
  · rw [if_neg hrev]
    have hrv : t.revealed = false := by
      revert hrev
      cases t.revealed <;> simp
    cases htt : t.type <;> simp [Tile.applyEffect, htt, hrv, Effect.empty]

/-- C10 (amended): `spawnUnit` and `moveUnit` perform no phase check and no
game-over check — in every state, including Defense-phase and game-over
states, a request passing the unit/gold/position validations goes through
and mutates the state: a spawn succeeds and pays the summon cost; a move
whose revealed target is not a wall succeeds and pays the move cost (plus
the treasure bonus when collecting); a move onto a wall is the one
validated request that still fails (`blocked-by-wall`), yet it too mutates
state (the cost is lost).  Neither operation ever returns the wrong-phase
error. -/
theorem C10_theorem :
    (∀ (s : GameState) (k : UnitType),
        (s.units.get k).alive = false →
        (s.units.get k).canRespawn = true →
        ¬s.gold < ((s.units.get k).getSpawnCost s.config : Int) →
        (¬∃ j ∈ allUnitTypes, (s.units.get j).alive = true ∧ (s.units.get j).x = -1 ∧
            (s.units.get j).spawned = true) →
        (s.spawnUnit k).1.success = true ∧
        (s.spawnUnit k).1.error = none ∧
        (s.spawnUnit k).2.gold = s.gold - ((s.units.get k).getSpawnCost s.config : Int) ∧
        ((s.spawnUnit k).2.units.get k).alive = true ∧
        ((s.spawnUnit k).2.units.get k).x = -1) ∧
    (∀ (s : GameState) (ut : UnitType) (tx ty : Int) (t : Tile),
        (s.units.get ut).alive = true →
        (s.units.get ut).trapped = false →
        ¬s.gold < ((s.units.get ut).getMoveCost s.config : Int) →
        (tx - (s.units.get ut).x, ty - (s.units.get ut).y)
            ∈ (s.units.get ut).getMovementOptions s.config.totalPaths →
        (¬∃ k ∈ allUnitTypes, k ≠ ut ∧ (s.units.get k).alive = true ∧
            (s.units.get k).x = tx ∧ (s.units.get k).y = ty) →
        s.board.getTile tx ty = some t →
        ¬t.type = TileType.wall →
        (s.moveUnit ut tx ty).1.success = true ∧
        (s.moveUnit ut tx ty).1.error = none ∧
        (s.moveUnit ut tx ty).2.gold
          = s.gold - ((s.units.get ut).getMoveCost s.config : Int)
            + (if t.type = TileType.treasure ∧ t.revealed = false then 4 else 0)) ∧
    (∀ (s : GameState) (ut : UnitType) (tx ty : Int) (t : Tile),
        (s.units.get ut).alive = true →
        (s.units.get ut).trapped = false →
        ¬s.gold < ((s.units.get ut).getMoveCost s.config : Int) →
        (tx - (s.units.get ut).x, ty - (s.units.get ut).y)
            ∈ (s.units.get ut).getMovementOptions s.config.totalPaths →
        (¬∃ k ∈ allUnitTypes, k ≠ ut ∧ (s.units.get k).alive = true ∧
            (s.units.get k).x = tx ∧ (s.units.get k).y = ty) →
        s.board.getTile tx ty = some t →
        t.type = TileType.wall →
        (s.moveUnit ut tx ty).1.success = false ∧
        (s.moveUnit ut tx ty).1.goldLost = true ∧
        (s.moveUnit ut tx ty).2.gold
          = s.gold - ((s.units.get ut).getMoveCost s.config : Int)) ∧
    (∀ (s : GameState) (ut : UnitType) (tx ty : Int),
        ¬(s.moveUnit ut tx ty).1.error = some GameError.wrongPhase ∧
        ¬(s.spawnUnit ut).1.error = some GameError.wrongPhase) := by
  refine ⟨?_, ?_, ?_, ?_⟩
  · intro s k hdead hresp hgold hocc
    rw [spawnUnit_spec s k hdead hresp hgold hocc]
    refine ⟨rfl, rfl, rfl, ?_, ?_⟩
    · rw [Units.get_set_same]
      rfl
    · rw [Units.get_set_same]
      rfl
  · intro s ut tx ty t halive htrap hgold hmv hocc hget htw
    have hvalid := Board.isValid_of_getTile hget
    have hnend : ¬s.board.isDefenseEndzone tx := by
      have h2 := hvalid.2.1
      unfold Board.isDefenseEndzone
      omega
    have heq := moveUnit_eq_exec s ut tx ty halive htrap hgold hmv hocc hvalid hnend
    have hne0 := move_target_ne_old s ut tx ty hmv
    have hok := moveUnitExec_ok_spec s ut tx ty
      ((s.units.get ut).getMoveCost s.config : Int) t hget htw hne0
    rw [heq, hok]
    refine ⟨rfl, rfl, ?_⟩
    rw [applyMoveEffects_gold]
    rw [effect_treasure_ite]
  · intro s ut tx ty t halive htrap hgold hmv hocc hget ht
    have hvalid := Board.isValid_of_getTile hget
    have hnend : ¬s.board.isDefenseEndzone tx := by
      have h2 := hvalid.2.1
      unfold Board.isDefenseEndzone
      omega
    have heq := moveUnit_eq_exec s ut tx ty halive htrap hgold hmv hocc hvalid hnend
    have hne0 := move_target_ne_old s ut tx ty hmv
    have hspec := moveUnitExec_wall_spec s ut tx ty
      ((s.units.get ut).getMoveCost s.config : Int) t hget ht hne0
    rw [heq]
    refine ⟨?_, ?_, hspec.2.1⟩
    · rw [hspec.1]
      rfl
    · rw [hspec.1]
      rfl
  · intro s ut tx ty
    exact ⟨moveUnit_no_wrongPhase s ut tx ty, spawnUnit_no_wrongPhase s ut⟩

/-- Counterexample to C10 as stated: in `gsD` (Defense phase, game already
over) the basic unit's move to the wall at `(2,0)` passes every unit, gold
and position validation, but the request does not succeed — it fails with
the wall block. -/
theorem C10_counterexample :
    (gsD.units.get .basic).alive = true ∧
    (gsD.units.get .basic).trapped = false ∧
    ¬gsD.gold < ((gsD.units.get .basic).getMoveCost gsD.config : Int) ∧
    ((2 : Int) - (gsD.units.get .basic).x, (0 : Int) - (gsD.units.get .basic).y)
      ∈ (gsD.units.get .basic).getMovementOptions gsD.config.totalPaths ∧
    gsD.board.isValidPosition 2 0 ∧
    (¬∃ k ∈ allUnitTypes, k ≠ UnitType.basic ∧ (gsD.units.get k).alive = true ∧
        (gsD.units.get k).x = 2 ∧ (gsD.units.get k).y = 0) ∧
    (gsD.moveUnit .basic 2 0).1.success = false := by
  decide

/-- Witness for C10 (amended): in `gsI` (Defense phase, game over) spawning
the basic unit passes the validations and succeeds, paying the summon
cost. -/
theorem C10_witness :
    (gsI.spawnUnit .basic).1.success = true ∧
    (gsI.spawnUnit .basic).1.error = none ∧
    (gsI.spawnUnit .basic).2.gold
      = gsI.gold - ((gsI.units.get .basic).getSpawnCost gsI.config : Int) ∧
    ((gsI.spawnUnit .basic).2.units.get .basic).alive = true ∧
    ((gsI.spawnUnit .basic).2.units.get .basic).x = -1 :=
  C10_theorem.1 gsI .basic rfl rfl (by decide) (by decide)

/-- C4: evaluation of the engine at the failing input.  In `gsA` the basic
unit moves onto the unrevealed oil slick at `(1,1)`; the slide direction is
`(1,0)` and the landing tile `(2,1)` is a wall.  The code only logs a
"bounced back" message: the unit ends the move still standing on the
oil-slick tile `(1,1)` — it is not reversed, contradicting the claimed
bounce-back behavior (the pushback-cancel half of the claim matches the
code, which leaves the unit in place in both cases). -/
theorem C4_theorem :
    (gsA.moveUnit .basic 1 1).1.success = true ∧
    (gsA.moveUnit .basic 1 1).1.effects
      = some ⟨false, false, false, some (1, 0), false, false⟩ ∧
    (gsA.board.getTile 2 1).map Tile.type = some TileType.wall ∧
    ((gsA.moveUnit .basic 1 1).2.units.get .basic).x = 1 ∧
    ((gsA.moveUnit .basic 1 1).2.units.get .basic).y = 1 ∧
    ((gsA.moveUnit .basic 1 1).2.units.get .basic).alive = true := by
  decide

/-- Witness for C5 at a jumper on column 5: the full eight-offset set,
duplicate-free. -/
theorem C5_witness :
    (Unit.mk .jumper 5 0 true true false false).getMovementOptions 4
      = [(2, 0), (0, 2), (0, -2), (2, 2), (2, -2), (-2, 2), (-2, -2), (-2, 0)] ∧
    ((Unit.mk .jumper 5 0 true true false false).getMovementOptions 4).Nodup :=
  C5_theorem.2.2.2.2.2.1 ⟨.jumper, 5, 0, true, true, false, false⟩ 4 rfl (by decide)

end Rockfall
